import Mathlib

/-!
Verification of the Pre-emptive IT Incident Dashboard repository.

This file gives a shallow embedding, in Lean 4, of the parts of
`runtime/excel_flow.py`, `runtime/incident_flow.py` and `runtime/data_janitor.py`
that the claims concern, and proves or refutes each claim about them.

Modelling conventions, used throughout:
* Python strings are Lean `String`s; all character-level operations
  (strip, lower, split, substring tests) are re-implemented over `List Char`
  so that they are executable in the kernel.  Lowercasing is modelled on the
  ASCII range, which is the range the repository's data uses.
* Python ints are `Int`, Python floats are `ℚ` (exact arithmetic; the float
  formulas in the source involve only small decimal constants).
* A Python dict field that may be absent, null, or present is a `PyField α`;
  `e.get(k, d)` returns an `Option α` where `none` models Python `None`.
* Code that can raise is modelled in `Except PyErr`; `try/except` blocks
  become `Option`-returning helpers.
* `datetime` values are opaque integers; `datetime.fromisoformat` /
  `pd.to_datetime` are uninterpreted parameters (`pt`, `dp`), and
  `datetime.now()` is an explicit parameter `now`.
* SHA-256 is modelled by an uninterpreted parameter where a claim depends on
  it (structural hash), and by its preimage string where it does not
  (cluster signatures): the claims only ever need that equal inputs give
  equal digests.
-/

/-! ## Generic Python-style string helpers -/

/-- The whitespace set of Python `str.strip` / `str.split` (ASCII range). -/
def pyIsSpace (c : Char) : Bool :=
  c = ' ' || c = '\t' || c = '\n' || c = '\r' || c = '\x0b' || c = '\x0c'

/-- `str.strip()` on a character list. -/
def pyStripList (cs : List Char) : List Char :=
  ((cs.dropWhile pyIsSpace).reverse.dropWhile pyIsSpace).reverse

/-- Python `value.strip()`. -/
def pyStrip (s : String) : String := String.mk (pyStripList s.toList)

/-- ASCII lowercase of one character (Python `str.lower` on the data in use). -/
def asciiLower (c : Char) : Char :=
  if 'A' ≤ c ∧ c ≤ 'Z' then Char.ofNat (c.toNat + 32) else c

/-- Python `value.lower()`. -/
def strLower (s : String) : String := String.mk (s.toList.map asciiLower)

/-- Does `pat` occur as a leading segment of `l`? -/
def hasLead (pat l : List Char) : Bool :=
  match pat, l with
  | [], _ => true
  | _ :: _, [] => false
  | p :: ps, c :: cs => p == c && hasLead ps cs

/-- Does `pat` occur as a contiguous segment of `l`? -/
def hasSub : List Char → List Char → Bool
  | [], pat => hasLead pat []
  | c :: t, pat => hasLead pat (c :: t) || hasSub t pat

/-- Python `pat in s` on strings (substring containment). -/
def strContains (s pat : String) : Bool := hasSub s.toList pat.toList

/-- Python `s.endswith(suffix)` / `str.endswith` (kernel-executable
replacement for `String.endsWith`). -/
def strEndsWith (s suffix : String) : Bool :=
  hasLead suffix.toList.reverse s.toList.reverse

/-- Python `s.split(sep)` for a one-character separator (keeps empty parts). -/
def splitChar (sep : Char) : List Char → List (List Char)
  | [] => [[]]
  | c :: cs =>
    let r := splitChar sep cs
    if c == sep then [] :: r
    else
      match r with
      | [] => [[c]]
      | h :: t => (c :: h) :: t

/-- Python `s.split()` (split on whitespace runs, dropping empty parts):
one step of the right fold. -/
def splitWsStep (c : Char) (st : List Char × List (List Char)) :
    List Char × List (List Char) :=
  if pyIsSpace c then ([], if st.1.isEmpty then st.2 else st.1 :: st.2)
  else (c :: st.1, st.2)

/-- Python `s.split()` (split on whitespace runs, dropping empty parts). -/
def pySplitWs (s : String) : List String :=
  let st := s.toList.foldr splitWsStep ([], [])
  (if st.1.isEmpty then st.2 else st.1 :: st.2).map String.mk

/-- Python truthiness-based `a or b` for optional strings
(`None` and `""` are falsy). -/
def pyOrStr (a : Option String) (b : String) : String :=
  match a with
  | some s => if s = "" then b else s
  | none => b

/-- Keep an optional string only when it is truthy (models
`if v: d[k] = v`). -/
def optTruthy (a : Option String) : Option String :=
  match a with
  | some "" => none
  | x => x

/-- `os.path.basename` for forward-slash paths (the repository only builds
forward-slash keys/labels). -/
def pyBasename (s : String) : String :=
  String.mk ((splitChar '/' s.toList).getLastD [])

/-- Stable insertion into a list sorted by the boolean preorder `le`:
the new element goes after existing elements it ties with, which is
how Python's stable `list.sort` behaves. -/
def insertStable (le : α → α → Bool) (a : α) : List α → List α
  | [] => [a]
  | b :: bs => if le b a then b :: insertStable le a bs else a :: b :: bs

/-- Stable sort by the boolean preorder `le` (models Python `list.sort`). -/
def stableSortBy (le : α → α → Bool) (l : List α) : List α :=
  l.foldl (fun acc a => insertStable le a acc) []

/-- Lexicographic `≤` on character lists by code point, matching Python's
string comparison. -/
def charListLe : List Char → List Char → Bool
  | [], _ => true
  | _ :: _, [] => false
  | a :: as, b :: bs =>
    if a.toNat < b.toNat then true
    else if b.toNat < a.toNat then false
    else charListLe as bs

/-- Python `a <= b` on strings. -/
def strLe (a b : String) : Bool := charListLe a.toList b.toList

/-! ## `excel_flow._numeric_like` and `_header_looks_like_data` (claim C5) -/

/-- `text.replace(".", "", 1)`: drop the first `'.'` only. -/
def removeFirstDot : List Char → List Char
  | [] => []
  | c :: cs => if c = '.' then cs else c :: removeFirstDot cs

/-- `excel_flow._numeric_like`: the stripped text, with its first dot
removed, is a non-empty string of digits (Python `str.isdigit` is false on
the empty string). -/
def numericLike (value : String) : Bool :=
  let text := pyStripList value.toList
  if text.isEmpty then false
  else
    let t := removeFirstDot text
    !t.isEmpty && t.all Char.isDigit

/-- `excel_flow._header_looks_like_data`: an empty header list counts as
data-like; otherwise at least `max 1 (n / 2)` headers must look numeric. -/
def headerLooksLikeData (headers : List String) : Bool :=
  if headers.isEmpty then true
  else decide (max 1 (headers.length / 2) ≤ headers.countP fun h => numericLike h)

/-- The data-like test as the spec words it: at least half of the headers
look numeric. -/
def specAtLeastHalfNumeric (headers : List String) : Prop :=
  headers.length ≤ 2 * headers.countP fun h => numericLike h

/-! ## `incident_flow._action_for_host` and the per-host action assignment
in `build_fleet_summary` (claim C2) -/

/-- `incident_flow._action_for_host`, returning
`(action, delta, action_reason)`. -/
def actionForHost (score : Int) (prevScore : Option Int)
    (hasClusterSpike hasNewCritical : Bool) : String × Option Int × String :=
  let delta : Option Int :=
    match prevScore with
    | some p => some (score - p)
    | none => none
  let deltaGe : Int → Bool := fun k =>
    match delta with
    | some d => decide (k ≤ d)
    | none => false
  if hasNewCritical || hasClusterSpike ||
      (decide (70 ≤ score) && (prevScore.isNone || deltaGe 5)) then
    ("contact", delta, "High severity or cluster spike")
  else if decide (50 ≤ score) || deltaGe 10 then
    ("monitor", delta, "Moderate severity or trending up")
  else
    ("ignore", delta, "Low severity or stable")

/-- A cluster as the per-host action loop of `build_fleet_summary` sees it:
its run-over-run `status` and incident `type`. -/
structure ClusterRef where
  status : String
  type : String
deriving DecidableEq, Repr

/-- The criticality test `build_fleet_summary` applies to one entry of a
host's `reasons` list. -/
def criticalReason (r : String) : Bool :=
  strContains (strLower r) "bsod" || strContains (strLower r) "unexpected_shutdown"

/-- The per-host action assignment inside `build_fleet_summary`: it passes
`has_new or has_critical_incident` as the `has_new_critical` argument. -/
def hostAction (score : Int) (prevScore : Option Int)
    (relatedClusters : List ClusterRef) (reasons : List String) :
    String × Option Int × String :=
  let hasSpike := relatedClusters.any fun c => c.status == "spiking"
  let hasNew := relatedClusters.any fun c => c.status == "new"
  let hasCriticalIncident := reasons.any criticalReason
  actionForHost score prevScore hasSpike (hasNew || hasCriticalIncident)

/-- The `contact` condition as the spec words it: a spiking cluster, or a
cluster that is both `new` and critical (bsod/unexpected_shutdown), or the
score condition. -/
def specContactCond (score : Int) (prevScore : Option Int)
    (relatedClusters : List ClusterRef) : Prop :=
  (∃ c ∈ relatedClusters, c.status = "spiking") ∨
  (∃ c ∈ relatedClusters, c.status = "new" ∧
      (c.type = "bsod" ∨ c.type = "unexpected_shutdown")) ∨
  (70 ≤ score ∧ (prevScore = none ∨ ∃ p, prevScore = some p ∧ 5 ≤ score - p))

/-! ## The two per-field cleaning layers (claim C4)

`excel_flow._clean_number_value` / `_clean_date_value` /
`_apply_type_enforcement` on one side, and
`data_janitor.clean_series` / `clean_value` on the other. -/

/-- `text.replace(",", "")`. -/
def removeCommas (cs : List Char) : List Char := cs.filter fun c => c ≠ ','

/-- The greedy match of `\d+(?:\.\d+)?` starting at the head of `cs`
(head is known to be a digit). -/
def matchNum (cs : List Char) : List Char :=
  let ds := cs.takeWhile Char.isDigit
  let rest := cs.dropWhile Char.isDigit
  match rest with
  | '.' :: r2 =>
    let fs := r2.takeWhile Char.isDigit
    if fs.isEmpty then ds else ds ++ '.' :: fs
  | _ => ds

/-- `re.search(r"-?\d+(?:\.\d+)?", s)`: the leftmost match, if any. -/
def searchNumber : List Char → Option (List Char)
  | [] => none
  | c :: cs =>
    if c = '-' then
      match cs with
      | d :: _ => if d.isDigit then some ('-' :: matchNum cs) else searchNumber cs
      | [] => none
    else if c.isDigit then some (matchNum (c :: cs))
    else searchNumber cs

/-- `excel_flow._clean_number_value`: strip, drop commas, and return the
first numeric capture as text (empty string when there is none). -/
def cleanNumberValue (value : String) : String :=
  let text := pyStripList value.toList
  if text.isEmpty then ""
  else
    match searchNumber (removeCommas text) with
    | some m => String.mk m
    | none => ""

/-- `excel_flow._clean_date_value`, with `pd.to_datetime` + `.date().isoformat()`
modelled by the uninterpreted parameter `dp`; on parse failure the stripped
text is returned unchanged. -/
def cleanDateValue (dp : String → Option String) (value : String) : String :=
  let text := pyStrip value
  if text = "" then ""
  else
    match dp value with
    | some iso => iso
    | none => text

/-- `excel_flow._apply_type_enforcement`. -/
def applyTypeEnforcement (dp : String → Option String)
    (rows : List (List String)) (types : List String) : List (List String) :=
  rows.map fun row =>
    row.enum.map fun p =>
      let dtype := types.getD p.1 "string"
      if dtype = "number" then cleanNumberValue p.2
      else if dtype = "date" then cleanDateValue dp p.2
      else p.2

/-- The value of a non-empty digit list read in base 10. -/
def digitsVal (cs : List Char) : Nat :=
  cs.foldl (fun acc c => 10 * acc + (c.toNat - '0'.toNat)) 0

/-- Parse an unsigned `float()` literal over the alphabet `[0-9.]`:
`d+`, `d+.d*` or `.d+` (Python accepts a trailing or leading dot but not a
bare dot). -/
def parseUF (cs : List Char) : Option ℚ :=
  let ip := cs.takeWhile Char.isDigit
  let rest := cs.dropWhile Char.isDigit
  match rest with
  | [] => if ip.isEmpty then none else some (digitsVal ip : ℚ)
  | '.' :: frac =>
    if frac.all Char.isDigit && !(ip.isEmpty && frac.isEmpty) then
      some ((digitsVal ip : ℚ) + mkRat (digitsVal frac) (10 ^ frac.length))
    else none
  | _ => none

/-- Python `float(s)` on a string drawn from the alphabet `[0-9.\-]`
(the only strings `clean_num` ever passes to it): `-` is only legal as a
single leading sign. -/
def floatParseFiltered (s : List Char) : Option ℚ :=
  match s with
  | [] => none
  | '-' :: rest =>
    if rest.contains '-' then none
    else (parseUF rest).map fun q => -q
  | _ =>
    if s.contains '-' then none else parseUF s

/-- Read the text emitted by `_clean_number_value` back as the number it
denotes (it is always `""` or a plain signed decimal numeral). -/
def numValue (s : String) : Option ℚ := floatParseFiltered s.toList

/-- `data_janitor.clean_series(·, "number")` on one string cell
(`clean_num`): keep only `[0-9.\-]`, then `float()`, `None` on failure. -/
def janitorCleanNumber (x : String) : Option ℚ :=
  let s := x.toList.filter fun c => c.isDigit || c = '.' || c = '-'
  if s.isEmpty then none else floatParseFiltered s

/-- `data_janitor.clean_series(·, "string")` on one string cell:
`astype(str).str.strip().replace("nan", "")`. -/
def janitorCleanString (x : String) : String :=
  let t := pyStrip x
  if t = "nan" then "" else t

/-- A cell of the manual-recipe output table after `clean_series`:
a string, an exact float, a parsed date, or Python `None`/`NaT`. -/
inductive Cell where
  | s (v : String)
  | q (v : ℚ)
  | date (d : String)
  | null
deriving DecidableEq, Repr

/-- `data_janitor.clean_series` on one string cell, all four type branches
(`date` parsing via the uninterpreted `dp`; an unknown type is passthrough). -/
def janitorCleanCell (dp : String → Option String) (dtype : String)
    (v : String) : Cell :=
  if dtype = "number" then
    match janitorCleanNumber v with
    | some q => .q q
    | none => .null
  else if dtype = "date" then
    match dp v with
    | some d => .date d
    | none => .null
  else if dtype = "string" then .s (janitorCleanString v)
  else .s v

/-- The stripped text is a plain signed decimal numeral:
an optional `-`, one or more digits, optionally `.` and one or more digits. -/
def isSimpleNumeral (s : String) : Bool :=
  let cs := if s.toList.head? = some '-' then s.toList.drop 1 else s.toList
  let ip := cs.takeWhile Char.isDigit
  let rest := cs.dropWhile Char.isDigit
  !ip.isEmpty &&
    (rest.isEmpty ||
      (rest.head? = some '.' && !(rest.drop 1).isEmpty &&
        (rest.drop 1).all Char.isDigit))

/-! ## Incident detectors (`incident_flow.py`, claims C3 and C6) -/

/-- A value of one key of a Python event dict: the key may be absent,
present with value `None`, or present with a proper value. -/
inductive PyField (α : Type) where
  | absent
  | null
  | val (a : α)
deriving DecidableEq, Repr

/-- `e.get(k, d)`: the default when absent; `none` models Python `None`. -/
def PyField.get (f : PyField α) (d : α) : Option α :=
  match f with
  | .absent => some d
  | .null => none
  | .val a => some a

/-- `e.get(k)` with no default. -/
def PyField.getOpt (f : PyField α) : Option α :=
  match f with
  | .val a => some a
  | _ => none

/-- The Python exceptions the detectors can raise on malformed events. -/
inductive PyErr where
  | attributeError
  | typeError
deriving DecidableEq, Repr

/-- `v.lower()` on a possibly-`None` value (`None.lower()` raises
`AttributeError`). -/
def optLower (o : Option String) : Except PyErr String :=
  match o with
  | none => .error .attributeError
  | some s => .ok (strLower s)

/-- `x in v` for a possibly-`None` list (`x in None` raises `TypeError`). -/
def pyInTags (x : String) (o : Option (List String)) : Except PyErr Bool :=
  match o with
  | none => .error .typeError
  | some l => .ok (l.contains x)

/-- An event of a host snapshot, with every field the detectors touch. -/
structure Event where
  ts : PyField String
  level : PyField String
  provider : PyField String
  source : PyField String
  eventId : PyField Int
  message : PyField String
  recordId : PyField String
  tags : PyField (List String)
deriving DecidableEq, Repr

/-- A Python list comprehension with a predicate that can raise. -/
def filterE (p : α → Except PyErr Bool) : List α → Except PyErr (List α)
  | [] => .ok []
  | a :: rest => do
    let b ← p a
    let tail ← filterE p rest
    pure (if b then a :: tail else tail)

/-- Evidence filter of `_detect_bsod`. -/
def bsodPred (e : Event) : Except PyErr Bool := do
  let a ← pyInTags "bsod" (e.tags.get [])
  if a then pure true else pyInTags "unexpected_shutdown" (e.tags.get [])

/-- Evidence filter of `_detect_disk_full`. -/
def diskPred (e : Event) : Except PyErr Bool := do
  let a ← pyInTags "disk_full" (e.tags.get [])
  if a then pure true
  else do
    let s ← optLower (e.source.get "")
    pure (strContains s "disk")

/-- Evidence filter of `_detect_service_crash`. -/
def serviceCrashPred (e : Event) : Except PyErr Bool := do
  let a ← pyInTags "service_crash" (e.tags.get [])
  if a then pure true
  else do
    let p ← optLower (e.provider.get "")
    pure (strContains p "service control manager")

/-- Evidence filter of `_detect_network`. -/
def networkPred (e : Event) : Except PyErr Bool := do
  let a ← pyInTags "network_reset" (e.tags.get [])
  if a then pure true else pyInTags "dns_failure" (e.tags.get [])

/-- Evidence filter of `_detect_update_failure`. -/
def updatePred (e : Event) : Except PyErr Bool := do
  let a ← pyInTags "update_failure" (e.tags.get [])
  if a then pure true
  else do
    let s ← optLower (e.source.get "")
    pure (strContains s "update")

/-- One whitespace-collapsing step (`re.sub(r"\s+", " ", ·)`): the
accumulator records whether the previous character was whitespace. -/
def collapseWsStep (st : List Char × Bool) (c : Char) : List Char × Bool :=
  if pyIsSpace c then (if st.2 then st else (st.1 ++ [' '], true))
  else (st.1 ++ [c], false)

/-- `re.sub(r"\s+", " ", s)`. -/
def collapseWs (s : String) : String :=
  String.mk (s.toList.foldl collapseWsStep ([], false)).1

/-- One digit-templating step (`re.sub(r"\d+", "<n>", ·)`): the accumulator
records whether the previous character was a digit. -/
def digitsToNStep (st : List Char × Bool) (c : Char) : List Char × Bool :=
  if c.isDigit then (if st.2 then st else (st.1 ++ ['<', 'n', '>'], true))
  else (st.1 ++ [c], false)

/-- `re.sub(r"\d+", "<n>", s)`. -/
def digitsToN (s : String) : String :=
  String.mk (s.toList.foldl digitsToNStep ([], false)).1

/-- `incident_flow._normalize_message_template`. -/
def normalizeMessageTemplate (message : String) : String :=
  digitsToN (collapseWs (pyStrip (strLower message)))

/-- Python `str(...)` formatting of a possibly-`None` string. -/
def fmtOptStr (o : Option String) : String :=
  match o with
  | none => "None"
  | some s => s

/-- Python `str(...)` formatting of a possibly-`None` int. -/
def fmtOptInt (o : Option Int) : String :=
  match o with
  | none => "None"
  | some i => toString i

/-- The `cluster_basis` record of `_signature_for_event`. -/
structure SigBasis where
  provider : Option String
  eventId : Option Int
  template : String
deriving DecidableEq, Repr

/-- `incident_flow._signature_for_event`.  The SHA-256 digest is modelled by
its preimage `provider|event_id|template`; no claim depends on the digest
bytes, only on equal preimages giving equal digests.  Raises when `message`
is `None` (`None.lower()` inside `_normalize_message_template`). -/
def signatureForEvent (provider : Option String) (eventId : Option Int)
    (message : Option String) : Except PyErr (String × SigBasis) :=
  match message with
  | none => .error .attributeError
  | some m =>
    let template := normalizeMessageTemplate m
    .ok (fmtOptStr provider ++ "|" ++ fmtOptInt eventId ++ "|" ++ template,
      ⟨provider, eventId, template⟩)

/-- A cleaned evidence record (`incident_flow._clean_evidence`): the three
always-present keys may still hold `None`; the optional keys are included
only when their source value is a proper value. -/
structure EvidenceRec where
  ts : Option String
  provider : Option String
  level : Option String
  message : String
  eventId : Option Int
  source : Option String
  recordId : Option String
deriving DecidableEq, Repr

/-- `incident_flow._clean_evidence`. -/
def cleanEvidence (events : List Event) : List EvidenceRec :=
  events.map fun e =>
    let m := (e.message.get "").getD ""
    let m := if 512 < m.length then (m.take 509).push '.' |>.push '.' |>.push '.' else m
    { ts := e.ts.get "", provider := e.provider.get "", level := e.level.get "",
      message := m, eventId := e.eventId.getOpt, source := e.source.getOpt,
      recordId := e.recordId.getOpt }

/-- The timestamps of `events` that parse (`_parse_ts` inside
`try/except`); `pt` is the uninterpreted ISO-8601 parser. -/
def parsedTimestamps (pt : String → Option Int) (events : List Event) : List Int :=
  events.filterMap fun e =>
    match e.ts.get "" with
    | none => none
    | some s => pt s

/-- `incident_flow._summarize_events`: the min/max parsed timestamp, or
`now` twice when nothing parses. -/
def summarizeEvents (pt : String → Option Int) (now : Int)
    (events : List Event) : Int × Int :=
  match parsedTimestamps pt events with
  | [] => (now, now)
  | t :: ts => (ts.foldl min t, ts.foldl max t)

/-- `incident_flow._recommended_actions`. -/
def recommendedActionsFor (incidentType : String) : List String :=
  if incidentType = "bsod" then
    ["Capture minidump and driver list before reboot loops clear them.",
     "Roll back or update the last installed driver/patch."]
  else if incidentType = "disk_full" then
    ["Clear temp folders and large caches.",
     "Expand disk or reassign user data to secondary volume."]
  else if incidentType = "service_crash_loop" then
    ["Review service logs for repeated stop codes.",
     "Restart service under supervisor and collect crash dumps."]
  else if incidentType = "network_instability" then
    ["Reset adapter and DNS cache, verify driver version.",
     "Check site switch/appliance for correlated resets."]
  else if incidentType = "update_failure" then
    ["Re-run updater with verbose logging enabled.",
     "Remove partially applied patches and retry."]
  else ["Collect logs and escalate to tier 2."]

/-- The `Incident` dataclass.  `clusterSignature` holds the signature-hash
preimage (see `signatureForEvent`); `start`/`stop` hold the opaque
timestamps of `_summarize_events`. -/
structure Incident where
  id : String
  type : String
  title : String
  summary : Option String
  severity : Int
  confidence : ℚ
  recommendedActions : List String
  evidence : List EvidenceRec
  clusterSignature : String
  clusterBasis : SigBasis
  start : Int
  stop : Int
deriving DecidableEq, Repr

/-- `incident_flow._detect_bsod`. -/
def detectBsod (pt : String → Option Int) (now : Int) (events : List Event) :
    Except PyErr (Option Incident) := do
  let evidence ← filterE bsodPred events
  match evidence with
  | [] => pure none
  | e0 :: _ =>
    let n : Int := evidence.length
    let severity : Int := min 100 (85 + 5 * (n - 1))
    let confidence : ℚ := if 1 < evidence.length then 9/10 else 3/4
    let sig ← signatureForEvent (e0.provider.get "") e0.eventId.getOpt (e0.message.get "")
    let se := summarizeEvents pt now evidence
    pure (some
      { id := "", type := "bsod", title := "Blue screen / unexpected shutdown",
        summary := some "Detected blue screen or unexpected shutdown events",
        severity := severity, confidence := confidence,
        recommendedActions := recommendedActionsFor "bsod",
        evidence := cleanEvidence evidence,
        clusterSignature := sig.1, clusterBasis := sig.2,
        start := se.1, stop := se.2 })

/-- `incident_flow._detect_disk_full`. -/
def detectDiskFull (pt : String → Option Int) (now : Int) (events : List Event) :
    Except PyErr (Option Incident) := do
  let evidence ← filterE diskPred events
  match evidence with
  | [] => pure none
  | e0 :: _ =>
    let n : Int := evidence.length
    let severity : Int := 70 + min 20 (5 * (n - 1))
    let confidence : ℚ := 7/10 + (1/20) * (evidence.length : ℚ)
    let sig ← signatureForEvent (e0.provider.get "") e0.eventId.getOpt (e0.message.get "")
    let se := summarizeEvents pt now evidence
    pure (some
      { id := "", type := "disk_full", title := "Disk near capacity",
        summary := some "Disk usage approaching capacity",
        severity := min 95 severity, confidence := min (19/20) confidence,
        recommendedActions := recommendedActionsFor "disk_full",
        evidence := cleanEvidence evidence,
        clusterSignature := sig.1, clusterBasis := sig.2,
        start := se.1, stop := se.2 })

/-- `incident_flow._detect_service_crash`. -/
def detectServiceCrash (pt : String → Option Int) (now : Int) (events : List Event) :
    Except PyErr (Option Incident) := do
  let crashEvents ← filterE serviceCrashPred events
  if crashEvents.length < 2 then pure none
  else
    match crashEvents with
    | [] => pure none
    | e0 :: _ => do
      let n : Int := crashEvents.length
      let severity : Int := 65 + 5 * min 5 n
      let confidence : ℚ := 7/10 + (1/20) * (crashEvents.length : ℚ)
      let sig ← signatureForEvent (e0.provider.get "") e0.eventId.getOpt (e0.message.get "")
      let se := summarizeEvents pt now crashEvents
      pure (some
        { id := "", type := "service_crash_loop", title := "Service crash loop detected",
          summary := some "Repeated service crashes detected",
          severity := min 90 severity, confidence := min (19/20) confidence,
          recommendedActions := recommendedActionsFor "service_crash",
          evidence := cleanEvidence crashEvents,
          clusterSignature := sig.1, clusterBasis := sig.2,
          start := se.1, stop := se.2 })

/-- `incident_flow._detect_network`. -/
def detectNetwork (pt : String → Option Int) (now : Int) (events : List Event) :
    Except PyErr (Option Incident) := do
  let netEvents ← filterE networkPred events
  match netEvents with
  | [] => pure none
  | e0 :: _ =>
    let n : Int := netEvents.length
    let severity : Int := 55 + 5 * min 6 n
    let confidence : ℚ := 3/5 + (1/20) * (netEvents.length : ℚ)
    let sig ← signatureForEvent (e0.provider.get "") e0.eventId.getOpt (e0.message.get "")
    let se := summarizeEvents pt now netEvents
    pure (some
      { id := "", type := "network_instability",
        title := "Network adapter resets / DNS failures",
        summary := some "Network instability detected",
        severity := min 85 severity, confidence := min (9/10) confidence,
        recommendedActions := recommendedActionsFor "network_instability",
        evidence := cleanEvidence netEvents,
        clusterSignature := sig.1, clusterBasis := sig.2,
        start := se.1, stop := se.2 })

/-- `incident_flow._detect_update_failure`. -/
def detectUpdateFailure (pt : String → Option Int) (now : Int) (events : List Event) :
    Except PyErr (Option Incident) := do
  let updEvents ← filterE updatePred events
  match updEvents with
  | [] => pure none
  | e0 :: _ =>
    let n : Int := updEvents.length
    let severity : Int := 65 + 5 * min 4 (n - 1)
    let confidence : ℚ := 13/20 + (1/20) * (updEvents.length : ℚ)
    let sig ← signatureForEvent (e0.provider.get "") e0.eventId.getOpt (e0.message.get "")
    let se := summarizeEvents pt now updEvents
    pure (some
      { id := "", type := "update_failure", title := "Update or install failure burst",
        summary := some "Repeated update or install failures",
        severity := min 90 severity, confidence := min (9/10) confidence,
        recommendedActions := recommendedActionsFor "update_failure",
        evidence := cleanEvidence updEvents,
        clusterSignature := sig.1, clusterBasis := sig.2,
        start := se.1, stop := se.2 })

/-- `incident_flow._incident_id`. -/
def incidentId (hostId : String) (idx : Nat) : String :=
  hostId ++ "-incident-" ++ toString (idx + 1)

/-- `incident_flow.detect_incidents_for_host`: run the five detectors in
order, numbering the incidents that fire. -/
def detectIncidentsForHost (pt : String → Option Int) (now : Int)
    (hostId : String) (events : List Event) : Except PyErr (List Incident) := do
  let ds := [detectBsod, detectDiskFull, detectServiceCrash, detectNetwork,
    detectUpdateFailure]
  ds.foldlM (fun acc d => do
    let r ← d pt now events
    match r with
    | some inc => pure (acc ++ [{ inc with id := incidentId hostId acc.length }])
    | none => pure acc) []

/-- The well-formedness condition under which the detectors are total:
no present-but-null `tags`, `source`, `provider` or `message` field. -/
def noNullDetectorFields (events : List Event) : Prop :=
  ∀ e ∈ events, e.tags ≠ .null ∧ e.source ≠ .null ∧ e.provider ≠ .null ∧
    e.message ≠ .null

/-! ## Snapshot loader (`incident_flow._load_snapshots`, claim C7) -/

/-- One enumerated snapshot blob, as `_load_snapshots` sees it after the
store listing: its key, whether its JSON parses, the `host_id` recorded in
the payload (absent key modelled as `none`), the parsed `window.end`
(`none` when missing or unparseable), and the parsed `_receipt_time`
(unused by selection; kept for fidelity). -/
structure SnapFile where
  key : String
  parses : Bool
  dataHostId : Option String
  windowEnd : Option Int
  receiptTime : Option Int
deriving DecidableEq, Repr

/-- The host-directory pattern `^[A-Za-z0-9._:-]{3,64}$`. -/
def hostPatternOk (s : String) : Bool :=
  3 ≤ s.length && s.length ≤ 64 &&
    s.toList.all fun c => c.isAlphanum || c = '.' || c = '_' || c = ':' || c = '-'

/-- The snapshot filename pattern `^snapshot-\d{8}T\d{6}Z\.json$`. -/
def filePatternOk (s : String) : Bool :=
  let cs := s.toList
  cs.length = 30 && hasLead "snapshot-".toList cs &&
    ((cs.drop 9).take 8).all Char.isDigit && (cs.drop 17).take 1 == ['T'] &&
    ((cs.drop 18).take 6).all Char.isDigit && (cs.drop 24) == "Z.json".toList

/-- A selected snapshot entry (the dict appended to `per_host`): the key,
the payload `host_id`, and `end_dt or now`. -/
structure SnapEntry where
  key : String
  dataHostId : Option String
  end_ : Int
deriving DecidableEq, Repr

/-- `per_host.setdefault(host_id, []).append(v)` on an insertion-ordered
dict, modelled as an association list. -/
def bucketAppend (l : List (String × List SnapEntry)) (k : String)
    (v : SnapEntry) : List (String × List SnapEntry) :=
  match l with
  | [] => [(k, [v])]
  | (k', vs) :: rest =>
    if k' = k then (k', vs ++ [v]) :: rest else (k', vs) :: bucketAppend rest k v

/-- One iteration of the main loop of `_load_snapshots`, grouping an
enumerated key into `per_host` (or skipping it). -/
def loadSnapStep (cutoff now : Int) (perHost : List (String × List SnapEntry))
    (f : SnapFile) : List (String × List SnapEntry) :=
  match (splitChar '/' f.key.toList).reverse with
  | filename :: pathHost :: _ =>
    if !hostPatternOk (String.mk pathHost) then perHost
    else if !filePatternOk (String.mk filename) then perHost
    else if !f.parses then perHost
    else if (match f.windowEnd with
             | some e => decide (e < cutoff)
             | none => false) then perHost
    else
      let host := pyOrStr f.dataHostId (String.mk pathHost)
      bucketAppend perHost host ⟨f.key, f.dataHostId, f.windowEnd.getD now⟩
  | _ => perHost

/-- The per-host selection step: sort the bucket by `end` descending
(stably), then keep the newest (mode `"latest"`) or all of them. -/
def selectFromBucket (selectMode : String) (acc : List SnapEntry)
    (bucket : String × List SnapEntry) : List SnapEntry :=
  let sorted := stableSortBy (fun a b => decide (b.end_ ≤ a.end_)) bucket.2
  if selectMode = "latest" && !sorted.isEmpty then
    acc ++ sorted.take 1
  else acc ++ sorted

/-- `incident_flow._load_snapshots`: filter to `.json` keys, apply the
host/filename patterns and the window cutoff, group per host, select per
`select_mode`, sort by the payload `host_id`, and truncate to `max_hosts`. -/
def loadSnapshots (files : List SnapFile) (cutoff now : Int)
    (selectMode : String) (maxHosts : Option Nat) : List SnapEntry :=
  let keys := files.filter fun f => strEndsWith f.key ".json"
  let perHost := keys.foldl (loadSnapStep cutoff now) []
  let selected := perHost.foldl (selectFromBucket selectMode) []
  let selected := stableSortBy
    (fun a b => strLe (a.dataHostId.getD "") (b.dataHostId.getD "")) selected
  match maxHosts with
  | some m => selected.take m
  | none => selected

/-- The eligibility condition under which `_load_snapshots` keeps an
enumerated snapshot: `.json` suffix, a `<host>/<file>` key tail matching
both patterns, parseable JSON, and a window end that is absent or not
before the cutoff. -/
def eligibleSnap (cutoff : Int) (f : SnapFile) : Bool :=
  strEndsWith f.key ".json" &&
    (match (splitChar '/' f.key.toList).reverse with
     | filename :: pathHost :: _ =>
       hostPatternOk (String.mk pathHost) && filePatternOk (String.mk filename) &&
         f.parses &&
         !(match f.windowEnd with
           | some e => decide (e < cutoff)
           | none => false)
     | _ => false)

/-! ## Retention purge (`incident_flow.purge_old_runs`, claim C10) -/

/-- What `purge_old_runs` reads about one run: whether `<run>/pinned`
exists, and the outcome of `_run_generated_at` on
`<run>/fleet_summary.json` — `none` when the file is absent, and
`some none` when it exists but its `generated_at` is missing or does not
parse. -/
structure RunInfo where
  pinned : Bool
  fleetGeneratedAt : Option (Option Int)
deriving DecidableEq, Repr

/-- `incident_flow._run_generated_at`. -/
def runGeneratedAt (info : RunInfo) : Option Int :=
  match info.fleetGeneratedAt with
  | none => none
  | some none => none
  | some (some t) => some t

/-- `incident_flow.purge_old_runs`, returning the list of deleted run ids.
`runs` models `store.list_runs()` with what the store holds for each run;
`cutoff` is `now − retention_hours`. -/
def purgeOldRuns (runs : List (String × RunInfo)) (cutoff : Int)
    (keepRun : String) : List String :=
  runs.foldl (fun deleted r =>
    if r.1 = "history" then deleted
    else if r.1 = keepRun then deleted
    else if r.2.pinned then deleted
    else
      match runGeneratedAt r.2 with
      | some t => if t < cutoff then deleted ++ [r.1] else deleted
      | none => deleted) []

/-! ## Core A: the Puhemies tabular-ingestion flow (`excel_flow.py`,
claims C1, C4, C8, C9) -/

/-- Python truthiness-based `a or b` on two optional strings. -/
def pyOrOptStr (a b : Option String) : Option String :=
  match a with
  | some s => if s = "" then b else some s
  | none => b

/-- `excel_flow._normalize_label`:
`" ".join(str(value).strip().split()).lower()`. -/
def normalizeLabel (value : String) : String :=
  strLower (String.intercalate " " (pySplitWs value))

/-- `excel_flow._normalize_header` on a string cell (a `None` cell cannot
occur: previews are read with `fillna("")`). -/
def normalizeHeader (value : String) (idx : Nat) : String :=
  let text := strLower (pyStrip value)
  if text = "" then "unnamed_" ++ toString idx
  else String.mk (text.toList.map fun c => if c = ' ' then '_' else c)

/-- Python `round(q, 3)` with exact round-half-to-even ties. -/
def pyRound3 (q : ℚ) : ℚ :=
  let y := q * 1000
  let f : ℤ := ⌊y⌋
  let r := y - (f : ℚ)
  let n : ℤ :=
    if r < 1/2 then f
    else if 1/2 < r then f + 1
    else if f % 2 = 0 then f else f + 1
  (n : ℚ) / 1000

/-- A header candidate (`_build_header_candidates` dict). -/
structure Candidate where
  candidateId : String
  headerRows : List Int
  mergeStrategy : String
  normalizedHeaders : List String
  confidence : ℚ
  evidenceKeys : List String
deriving DecidableEq, Repr

/-- `excel_flow._build_header_candidates`. -/
def buildHeaderCandidates (previewRows : List (List String))
    (evidenceKey : String) : List Candidate :=
  if previewRows.isEmpty then []
  else
    let colCount := (previewRows.map List.length).foldl max 0
    previewRows.enum.map fun p =>
      let normalized := p.2.enum.map fun q => normalizeHeader q.2 q.1
      let nonEmpty := p.2.countP fun v => !(pyStrip v).isEmpty
      let fillFrac : ℚ := if colCount = 0 then 0 else (nonEmpty : ℚ) / (colCount : ℚ)
      let penalty : ℚ := if headerLooksLikeData normalized then 1/5 else 0
      let conf := min (max 0 (fillFrac - penalty)) (19/20)
      { candidateId := "row_" ++ toString p.1,
        headerRows := [(p.1 : Int)],
        mergeStrategy := "single_row",
        normalizedHeaders := normalized,
        confidence := pyRound3 conf,
        evidenceKeys := [evidenceKey] }

/-- `excel_flow._select_candidate` (Python `max` keeps the earliest of
tied elements). -/
def selectCandidate (cs : List Candidate) : Option Candidate :=
  match cs with
  | [] => none
  | c :: rest =>
    some (rest.foldl (fun best x => if best.confidence < x.confidence then x else best) c)

/-- The newline/pipe-joined normalization of the first five preview rows,
exactly the SHA-256 preimage of `_compute_structural_hash`. -/
def normalizedPreview (previewRows : List (List String)) : String :=
  String.intercalate "\n" ((previewRows.take 5).map fun row =>
    String.intercalate "|" (row.map normalizeLabel))

/-- `excel_flow._compute_structural_hash`; `sha` is the uninterpreted
SHA-256 hex digest.  The `file_label` argument is accepted and ignored,
exactly as in the source. -/
def computeStructuralHash (sha : String → String)
    (previewRows : List (List String)) (_fileLabel : Option String) : String :=
  sha (normalizedPreview previewRows)

/-- A choice offered in a `needs_human_confirmation` response. -/
structure Choice where
  id : String
  normalizedHeaders : List String
  confidence : ℚ
deriving DecidableEq, Repr

/-- The `PuhemiesResponse` dataclass. -/
structure PuhemiesResponse where
  runId : String
  status : String
  message : String
  question : Option String
  choices : Option (List Choice)
  nextStep : Option String
deriving DecidableEq, Repr

/-- The evidence packet (`evidence_packet.json`); optional keys are
`Option`s that are `none` when the source would omit the key. -/
structure EvidencePacket where
  runId : String
  artifactKey : String
  previewRows : List (List String)
  notes : String
  sourceUri : Option String
  inputArtifactKey : Option String
  fileHash : Option String
  structuralHash : Option String
  sheetName : Option String
  inputFilename : Option String
deriving DecidableEq, Repr

/-- The header spec (`header_spec.json`). -/
structure HeaderSpecDoc where
  runId : String
  artifactKey : String
  selectedCandidateId : String
  candidates : List Candidate
  needsHumanConfirmation : Bool
  alternatives : List String
deriving DecidableEq, Repr

/-- An atomic JSON value inside a recipe pointer. -/
inductive PAtom where
  | s (v : String)
  | i (v : Int)
  | null
deriving DecidableEq, Repr

/-- A JSON value used as a recipe `source_pointer` (nested objects hold
atoms; the extractor only ever reads atom-valued keys from them). -/
inductive PValue where
  | s (v : String)
  | i (v : Int)
  | null
  | obj (fields : List (String × PAtom))
deriving DecidableEq, Repr

/-- Python `int(...)` of a pointer coordinate, with `TypeError/ValueError`
as `none`. -/
def pyParseInt (s : String) : Option Int :=
  match pyStripList s.toList with
  | '-' :: ds => if !ds.isEmpty && ds.all Char.isDigit then some (-(digitsVal ds : Int)) else none
  | '+' :: ds => if !ds.isEmpty && ds.all Char.isDigit then some (digitsVal ds : Int) else none
  | ds => if !ds.isEmpty && ds.all Char.isDigit then some (digitsVal ds : Int) else none

/-- `int(atom)` with exceptions as `none`. -/
def atomToInt : PAtom → Option Int
  | .i v => some v
  | .s v => pyParseInt v
  | .null => none

/-- Python `str(atom)`. -/
def atomStr : PAtom → String
  | .s v => v
  | .i v => toString v
  | .null => "None"

/-- Python truthiness of an atom. -/
def atomTruthy : PAtom → Bool
  | .s v => !(v == "")
  | .i v => !(v == 0)
  | .null => false

/-- Key lookup in a JSON object. -/
def lookupAtom (fields : List (String × PAtom)) (k : String) : Option PAtom :=
  (fields.find? fun p => p.1 == k).map (·.2)

/-- `excel_flow._parse_metadata_pointer`: a dict with `row` and `col` keys
whose values convert with `int()`. -/
def parseMetadataPointer : PValue → Option (Int × Int)
  | .obj fields =>
    if (lookupAtom fields "row").isNone || (lookupAtom fields "col").isNone then none
    else
      match atomToInt ((lookupAtom fields "row").getD .null),
        atomToInt ((lookupAtom fields "col").getD .null) with
      | some r, some c => some (r, c)
      | _, _ => none
  | _ => none

/-- The outcome of `excel_flow._parse_column_pointer`. -/
inductive ColPointer where
  | byName (n : PAtom)
  | byIdx (i : Int)
deriving DecidableEq, Repr

/-- `excel_flow._parse_column_pointer`. -/
def parseColumnPointer : PValue → Option ColPointer
  | .s v => some (.byName (.s v))
  | .i v => some (.byIdx v)
  | .null => none
  | .obj fields =>
    match lookupAtom fields "column" with
    | some v => some (.byName v)
    | none =>
      match lookupAtom fields "header" with
      | some v => some (.byName v)
      | none =>
        match lookupAtom fields "column_name" with
        | some v => some (.byName v)
        | none =>
          match lookupAtom fields "col", lookupAtom fields "row" with
          | some v, none => (atomToInt v).map .byIdx
          | _, _ => none

/-- One entry of a recipe's `fields` list (`Option` models an absent or
null key; `source_pointer` is checked against `None` in the source, so
absent and null coincide there). -/
structure RecipeField where
  target : Option String
  targetName : Option String
  sourcePointer : Option PValue
  sourceType : Option String
  dataType : Option String
deriving DecidableEq, Repr

/-- A parsed metadata field of a recipe. -/
structure MetaField where
  target : String
  row : Int
  col : Int
  dataType : Option String
deriving DecidableEq, Repr

/-- A parsed (or resolved) column field of a recipe. -/
structure ColField where
  target : String
  dataType : Option String
  columnName : Option PAtom
  columnIndex : Option Int
deriving DecidableEq, Repr

/-- A manual recipe (`manual_recipe.json`). -/
structure Recipe where
  fields : List RecipeField
  headerRowIndex : Option PAtom
  headerRow : Option PAtom
  headerRowIdx : Option PAtom
  mergeMetadataFields : Option (List String)
  mergeMetadata : Bool
deriving DecidableEq, Repr

/-- The body of the field loop of `_collect_manual_recipe_fields`, once a
truthy target is in hand. -/
def collectWithTarget (metaF : List MetaField) (colF : List ColField)
    (warnings : List String) (target : String) (field : RecipeField) :
    List MetaField × List ColField × List String :=
  match field.sourcePointer with
  | none => (metaF, colF, warnings ++ ["missing_source_pointer:" ++ target])
  | some ptr =>
    if field.sourceType = some "metadata" then
      match parseMetadataPointer ptr with
      | none => (metaF, colF, warnings ++ ["invalid_metadata_pointer:" ++ target])
      | some rc => (metaF ++ [⟨target, rc.1, rc.2, field.dataType⟩], colF, warnings)
    else if field.sourceType = some "column" then
      match parseColumnPointer ptr with
      | none => (metaF, colF, warnings ++ ["invalid_column_pointer:" ++ target])
      | some (.byName n) => (metaF, colF ++ [⟨target, field.dataType, some n, none⟩], warnings)
      | some (.byIdx i) => (metaF, colF ++ [⟨target, field.dataType, none, some i⟩], warnings)
    else
      match parseMetadataPointer ptr with
      | some rc => (metaF ++ [⟨target, rc.1, rc.2, field.dataType⟩], colF, warnings)
      | none =>
        match parseColumnPointer ptr with
        | some (.byName n) => (metaF, colF ++ [⟨target, field.dataType, some n, none⟩], warnings)
        | some (.byIdx i) => (metaF, colF ++ [⟨target, field.dataType, none, some i⟩], warnings)
        | none => (metaF, colF, warnings ++ ["unsupported_source_pointer:" ++ target])

/-- One iteration of the field loop of `_collect_manual_recipe_fields`. -/
def collectField (acc : List MetaField × List ColField × List String)
    (field : RecipeField) : List MetaField × List ColField × List String :=
  match optTruthy (pyOrOptStr field.target field.targetName) with
  | none => (acc.1, acc.2.1, acc.2.2 ++ ["missing_target"])
  | some target => collectWithTarget acc.1 acc.2.1 acc.2.2 target field

/-- `excel_flow._collect_manual_recipe_fields`. -/
def collectManualRecipeFields (fields : List RecipeField) :
    List MetaField × List ColField × List String :=
  fields.foldl collectField ([], [], [])

/-- Python `l[i:]` (negative starts count from the end, clamped at 0). -/
def pySliceFrom (l : List α) (i : Int) : List α :=
  if 0 ≤ i then l.drop i.toNat
  else l.drop (max 0 ((l.length : Int) + i)).toNat

/-- Ordered-dict upsert (Python `d[k] = v`). -/
def dictPut (l : List (String × α)) (k : String) (v : α) : List (String × α) :=
  match l with
  | [] => [(k, v)]
  | (k', v') :: rest =>
    if k' == k then (k', v) :: rest else (k', v') :: dictPut rest k v

/-- Python `d.get(k, default)`. -/
def dictGet (l : List (String × α)) (k : String) (d : α) : α :=
  ((l.find? fun p => p.1 == k).map (·.2)).getD d

/-- `excel_flow._resolve_header_row`. -/
def resolveHeaderRow (recipe : Recipe) (df : List (List String))
    (colF : List ColField) : Int :=
  let explicit := match recipe.headerRowIndex with
    | some v => some v
    | none =>
      match recipe.headerRow with
      | some v => some v
      | none => recipe.headerRowIdx
  match explicit with
  | some v => (atomToInt v).getD 0
  | none =>
    let headerNames := colF.filterMap (·.columnName)
    if headerNames.isEmpty then 0
    else
      let normHeaders := ((headerNames.filter fun n =>
        !(pyStrip (atomStr n)).isEmpty).map fun n => normalizeLabel (atomStr n)).dedup
      if normHeaders.isEmpty then 0
      else
        let maxRows := min df.length 50
        (((List.range maxRows).foldl (fun best idx =>
          let rowVals := df.getD idx []
          let normRow := ((rowVals.filter fun v => !(pyStrip v).isEmpty).map
            normalizeLabel).dedup
          let matchCount : Int := ((normHeaders.filter fun h => normRow.contains h).length : Int)
          if best.2 < matchCount then (idx, matchCount) else best)
          ((0 : Nat), (-1 : Int))).1 : Int)

/-- The name→index map built from the header row (first occurrence wins,
empty keys skipped). -/
def buildHeaderIndex (headerValues : List String) : List (String × Nat) :=
  headerValues.enum.foldl (fun acc p =>
    let key := normalizeLabel p.2
    if key = "" then acc
    else if (acc.find? fun q => q.1 == key).isSome then acc
    else acc ++ [(key, p.1)]) []

/-- `row[idx]` with Python's negative indexing (an index below `-len`,
which raises `IndexError` in Python, is modelled as `""`; none of the
verified paths reach it). -/
def pyGetIdx (row : List String) (i : Int) : String :=
  if 0 ≤ i then row.getD i.toNat ""
  else row.getD ((row.length : Int) + i).toNat ""

/-- The column count of the dataframe (`len(df.columns)`; pandas frames are
rectangular, ragged model rows are padded with `""`). -/
def dfColCount (df : List (List String)) : Nat :=
  (df.map List.length).foldl max 0

/-- `zip(*rows)`: transpose truncated to the shortest row. -/
def zipColumns [Inhabited α] (rows : List (List α)) : List (List α) :=
  match rows with
  | [] => []
  | r0 :: _ =>
    let m := rows.foldl (fun acc r => min acc r.length) r0.length
    (List.range m).map fun i => rows.map fun r => r.getD i default

instance : Inhabited Cell := ⟨.null⟩

/-- Python `str()` of an output cell.  A float with denominator 1 renders
as `n.0` the way Python renders whole floats; other denominators (only
reachable through the `_infer_dtype` fallback on already-cleaned cells)
are rendered as exact fractions. -/
def cellPyStr : Cell → String
  | .s v => v
  | .q q =>
    if q.den = 1 then toString q.num ++ ".0"
    else toString q.num ++ "/" ++ toString q.den
  | .date d => d
  | .null => "None"

/-- `excel_flow._infer_dtype` on string values. -/
def inferDtypeStr (values : List String) : String :=
  let cleaned := values.filter fun v => !(pyStrip v).isEmpty
  if cleaned.isEmpty then "string"
  else if cleaned.all numericLike then "number" else "string"

/-- `excel_flow._infer_dtype` on output cells (`str(v)` first). -/
def inferDtypeCells (values : List Cell) : String :=
  inferDtypeStr (values.map cellPyStr)

/-- `excel_flow._merge_metadata_into_rows` (the appended values pass
through `data_janitor.clean_value`). -/
def mergeMetadataIntoRows (dp : String → Option String)
    (rows : List (List Cell)) (columnFields : List ColField)
    (metadata : List (String × String)) (mergeFields : List String)
    (metadataFields : List MetaField) : List (List Cell) × List ColField :=
  if mergeFields.isEmpty then (rows, columnFields)
  else
    let metadataTypes := metadataFields.foldl (fun acc f =>
      if f.target = "" then acc
      else dictPut acc f.target (pyOrStr f.dataType "string")) []
    let mergedRows := rows.map fun row =>
      row ++ mergeFields.map fun fld =>
        janitorCleanCell dp (dictGet metadataTypes fld "string") (dictGet metadata fld "")
    let mergedFields := columnFields ++ mergeFields.map fun fld =>
      { target := fld, dataType := some (dictGet metadataTypes fld "string"),
        columnName := some (.s fld), columnIndex := none }
    (mergedRows, mergedFields)

/-- A stored artifact.  Shadow-log entries are modelled by their event
name (timestamps and metadata maps carry no claim content); CSV outputs
are modelled structurally as header + rows. -/
inductive Artifact where
  | evidencePacket (e : EvidencePacket)
  | headerSpec (h : HeaderSpecDoc)
  | humanConfirmation (confirmed : Option String)
  | headerOverride (sheetName : Option String) (headerRowIndex : Int)
      (editedHeaders : List (String × String)) (headerRows : Option (List Int))
      (mergeStrategy : Option String)
  | manualRecipe (r : Recipe)
  | tableRegion (startRow endRow : Option Int)
      (includeColumns excludeColumns : Option (List String))
  | adapterSpec (canonicalFields : Option (List String))
      (fieldMap types : Option (List (String × String)))
      (requiredFields evidenceKeys : Option (List String))
  | schemaSpec (runId artifactKeyStr schemaLayer : String)
      (fields : List (String × String × String × Bool))
      (confidence : ℚ) (evidenceKeys : List String)
  | saveManifest (runId artifactKeyStr : String)
      (savedFiles savedUris evidenceKeys : List String)
  | csvText (headers : List String) (rows : List (List String))
  | csvCells (headers : List String) (rows : List (List Cell))
  | metadataDoc (entries : List (String × String))
  | recipeIndex (entries : List (String × String × String × String))
  | shadow (events : List String)
deriving DecidableEq, Repr

/-- The artifact store restricted to one logical root: an association list
from keys to artifacts, last write wins. -/
abbrev Store := List (String × Artifact)

/-- `store.read`/`exists` combined: the artifact at a key, if any. -/
def Store.get (s : Store) (k : String) : Option Artifact :=
  (s.find? fun p => p.1 == k).map (·.2)

/-- `store.write_*`: upsert at a key. -/
def Store.put (s : Store) (k : String) (a : Artifact) : Store :=
  match s with
  | [] => [(k, a)]
  | (k', a') :: rest =>
    if k' == k then (k', a) :: rest else (k', a') :: Store.put rest k a

/-- `RunStore.store_key`. -/
def storeKey (runId filename : String) : String := runId ++ "/" ++ filename

/-- `RunStore.artifact_key`. -/
def artifactKeyOf (runId filename : String) : String :=
  "artifacts/" ++ runId ++ "/" ++ filename

/-- `store.uri_for_key` for the local backend (the root directory is
abstracted away). -/
def uriForKey (k : String) : String := "file://" ++ k

/-- `excel_flow._append_shadow`: append one event to `<run>/shadow.jsonl`. -/
def appendShadow (s : Store) (runId : String) (event : String) : Store :=
  let key := storeKey runId "shadow.jsonl"
  let existing := match s.get key with
    | some (.shadow evs) => evs
    | _ => []
  s.put key (.shadow (existing ++ [event]))

/-- A local materialization of the input file: the cell grid
(`_read_sheet_dataframe` with `fillna("")`) and its SHA-256 file hash
(`_hash_file`, carried as an opaque value). -/
structure InputFile where
  grid : List (List String)
  fileHash : String
deriving DecidableEq, Repr

/-- `excel_flow._recipe_store_key`. -/
def recipeStoreKey (h : String) : String :=
  "recipe_store/" ++ h ++ "/manual_recipe.json"

/-- `excel_flow._store_recipe_for_hash` (the index entry keeps the recipe
key, the `stored_at` stamp `nowStr` and the source run id). -/
def storeRecipeForHash (store : Store) (h : String) (recipe : Recipe)
    (runId nowStr : String) : Store :=
  let store1 := store.put (recipeStoreKey h) (.manualRecipe recipe)
  let index := match store1.get "recipe_store/recipe_index.json" with
    | some (.recipeIndex entries) => entries
    | _ => []
  let index2 := dictPut index h ("artifacts/" ++ recipeStoreKey h, nowStr, runId)
  store1.put "recipe_store/recipe_index.json" (.recipeIndex index2)

/-- `excel_flow._write_manual_recipe_outputs`. -/
def writeManualRecipeOutputs (store : Store) (runId : String)
    (columnFields : List ColField) (dataRows : List (List Cell))
    (metadata : List (String × String)) : Store :=
  let columnTargets := columnFields.map (·.target)
  let store1 := store.put (storeKey runId "output/clean_data.csv")
    (.csvCells columnTargets dataRows)
  let store2 := store1.put (storeKey runId "output/extracted_metadata.json")
    (.metadataDoc metadata)
  let schemaFields : List (String × String × String × Bool) :=
    if columnFields.isEmpty then []
    else
      let columns := zipColumns dataRows
      columnFields.enum.map fun p =>
        let values := columns.getD p.1 []
        let dtype := match optTruthy p.2.dataType with
          | some d => d
          | none => inferDtypeCells values
        let required := if values.isEmpty then false
          else values.all fun v => !(pyStrip (cellPyStr v)).isEmpty
        let src := match p.2.columnName with
          | some n => if atomTruthy n then atomStr n
              else "col_" ++ fmtOptInt p.2.columnIndex
          | none => "col_" ++ fmtOptInt p.2.columnIndex
        (src, p.2.target, dtype, required)
  let store3 := store2.put (storeKey runId "schema_spec.json")
    (.schemaSpec runId (artifactKeyOf runId "schema_spec.json") "manual_recipe"
      schemaFields (9/10) [artifactKeyOf runId "manual_recipe.json"])
  store3.put (storeKey runId "save_manifest.json")
    (.saveManifest runId (artifactKeyOf runId "save_manifest.json")
      [artifactKeyOf runId "output/clean_data.csv",
        artifactKeyOf runId "output/extracted_metadata.json"]
      [uriForKey (storeKey runId "output/clean_data.csv"),
        uriForKey (storeKey runId "output/extracted_metadata.json")]
      [artifactKeyOf runId "schema_spec.json"])

/-- `excel_flow._apply_manual_recipe`.  The pair's second component is the
Python control flow: `.error msg` is a raised `ValueError(msg)`; the first
component is the store as left behind (every raise in the source happens
before its first write, and the model keeps that property observable). -/
def applyManualRecipe (dp : String → Option String) (nowStr : String)
    (store : Store) (runId : String) (recipe : Recipe)
    (evidence : EvidencePacket) (input : Option InputFile) :
    Store × Except String Unit :=
  match input with
  | none => (store, .error "Manual recipe requires a readable input file.")
  | some inp =>
    let c := collectManualRecipeFields recipe.fields
    let metaF := c.1
    let colF := c.2.1
    if metaF.isEmpty && colF.isEmpty then
      (store, .error "Manual recipe has no usable fields.")
    else if colF.isEmpty then
      (store, .error "Manual recipe must include at least one column field to build a table.")
    else
      let df := inp.grid
      let headerRow := resolveHeaderRow recipe df colF
      let headerValues := if 0 ≤ headerRow ∧ headerRow < (df.length : Int)
        then df.getD headerRow.toNat [] else []
      let headerIndex := buildHeaderIndex headerValues
      let resolvedColumns := colF.map fun field =>
        let columnIndex : Option Int := match field.columnIndex with
          | some i => some i
          | none =>
            (headerIndex.find? fun p =>
              p.1 == normalizeLabel (atomStr (field.columnName.getD (.s "")))).map
              fun p => (p.2 : Int)
        { target := field.target, dataType := field.dataType,
          columnName := field.columnName, columnIndex := columnIndex : ColField }
      let dataRows := if (headerRow + 1 : Int) < (df.length : Int)
        then pySliceFrom df (headerRow + 1) else []
      let outputRows := dataRows.map fun row =>
        resolvedColumns.map fun field =>
          match field.columnIndex with
          | none => ""
          | some idx => if (row.length : Int) ≤ idx then "" else pyGetIdx row idx
      let cleanedRows : List (List Cell) :=
        if resolvedColumns.isEmpty then outputRows.map fun r => r.map Cell.s
        else outputRows.map fun row =>
          row.enum.map fun p =>
            let dtype := pyOrStr
              ((resolvedColumns.getD p.1 ⟨"", none, none, none⟩).dataType) "string"
            janitorCleanCell dp dtype p.2
      let extractedMetadata := metaF.foldl (fun acc field =>
        let value := if 0 ≤ field.row ∧ field.row < (df.length : Int) ∧
            0 ≤ field.col ∧ field.col < (dfColCount df : Int)
          then (df.getD field.row.toNat []).getD field.col.toNat ""
          else ""
        dictPut acc field.target value) []
      let mergeFields := match recipe.mergeMetadataFields with
        | some l =>
          if l.isEmpty then
            (if recipe.mergeMetadata then metaF.map (·.target) else [])
          else l
        | none => if recipe.mergeMetadata then metaF.map (·.target) else []
      let mr := mergeMetadataIntoRows dp cleanedRows resolvedColumns
        extractedMetadata mergeFields metaF
      let store1 := writeManualRecipeOutputs store runId mr.2 mr.1 extractedMetadata
      let store2 := appendShadow store1 runId "manual_recipe_applied"
      let store3 := match optTruthy evidence.structuralHash with
        | some h => storeRecipeForHash store2 h recipe runId nowStr
        | none => store2
      (store3, .ok ())

/-- `excel_flow.puhemies_orchestrate`: write the evidence packet, build and
select header candidates, run the ambiguity gate, and return the response
together with the updated store.  `sha` is the uninterpreted SHA-256 hex
digest used when no structural hash was supplied; `os.path.abspath` is the
identity on the absolute paths the callers pass. -/
def puhemiesOrchestrate (store : Store) (runId : String)
    (previewRows : List (List String))
    (filePath sourceUri inputArtifactKey structuralHash fileHash
      sheetName : Option String) (sha : String → String) :
    Store × PuhemiesResponse :=
  let sourceLabel := pyOrOptStr filePath sourceUri
  let evSourceUri : Option String :=
    match optTruthy sourceUri, optTruthy filePath with
    | some u, _ => some u
    | none, some p => some ("file://" ++ p)
    | none, none => none
  let ev : EvidencePacket := {
    runId := runId,
    artifactKey := artifactKeyOf runId "evidence_packet.json",
    previewRows := previewRows,
    notes := "synthetic preview rows",
    sourceUri := evSourceUri,
    inputArtifactKey := optTruthy inputArtifactKey,
    fileHash := optTruthy fileHash,
    structuralHash := some (pyOrStr (optTruthy structuralHash)
      (computeStructuralHash sha previewRows sourceLabel)),
    sheetName := optTruthy sheetName,
    inputFilename := optTruthy (some (pyBasename (pyOrStr sourceLabel ""))) }
  let store1 := store.put (storeKey runId "evidence_packet.json") (.evidencePacket ev)
  let candidates := buildHeaderCandidates previewRows ev.artifactKey
  let selected := selectCandidate candidates
  let selectedId := match selected with
    | some c => c.candidateId
    | none => ""
  let headerSpecBase : HeaderSpecDoc := {
    runId := runId,
    artifactKey := artifactKeyOf runId "header_spec.json",
    selectedCandidateId := selectedId,
    candidates := candidates,
    needsHumanConfirmation := false,
    alternatives := (candidates.filter fun c => !(c.candidateId == selectedId)).map
      (·.candidateId) }
  let okResult : Store × PuhemiesResponse :=
    let store2 := store1.put (storeKey runId "header_spec.json")
      (.headerSpec headerSpecBase)
    let store3 := appendShadow store2 runId "header_selection_ok"
    (store3,
      { runId := runId, status := "ok",
        message := "Header selection accepted.", question := none,
        choices := none, nextStep := some "continue_to_schema" })
  match selected with
  | some sel =>
    if headerLooksLikeData sel.normalizedHeaders then
      let store2 := store1.put (storeKey runId "header_spec.json")
        (.headerSpec { headerSpecBase with needsHumanConfirmation := true })
      let store3 := appendShadow store2 runId "stop_due_to_ambiguous_headers"
      (store3,
        { runId := runId, status := "needs_human_confirmation",
          message := "Header selection is ambiguous and looks like data.",
          question := some "Which header candidate should be used?",
          choices := some (candidates.map fun c =>
            ⟨c.candidateId, c.normalizedHeaders, c.confidence⟩),
          nextStep := some "provide_confirmed_header_candidate" })
    else okResult
  | none => okResult

/-- `excel_flow._read_header_row` on the sheet grid (both the xlsx
bounds-check and the csv scan yield the row, or `[]` when out of range). -/
def readHeaderRow (grid : List (List String)) (headerRow : Int) : List String :=
  if 0 ≤ headerRow ∧ headerRow < (grid.length : Int)
  then grid.getD headerRow.toNat [] else []

/-- `l[i]` on a row list with Python's negative indexing (below `-len`,
where Python raises, is modelled as `[]`; unreachable in verified paths). -/
def pyIndexRow (l : List (List String)) (i : Int) : List String :=
  if 0 ≤ i then l.getD i.toNat []
  else l.getD ((l.length : Int) + i).toNat []

/-- `excel_flow._apply_header_override`: returns the updated store, the
final headers and the header row index. -/
def applyHeaderOverride (store : Store) (runId : String)
    (headerRowIndex : Int) (editedHeaders : List (String × String))
    (headerRows : Option (List Int)) (mergeStrategy : Option String)
    (evidence : EvidencePacket) (input : Option InputFile) :
    Store × List String × Int :=
  let rawHeaders := match input with
    | some inp => readHeaderRow inp.grid headerRowIndex
    | none =>
      if headerRowIndex < (evidence.previewRows.length : Int)
      then pyIndexRow evidence.previewRows headerRowIndex else []
  let normalizedHeaders := rawHeaders.enum.map fun p => normalizeHeader p.2 p.1
  let finalHeaders := normalizedHeaders.map fun h => dictGet editedHeaders h h
  let spec : HeaderSpecDoc := {
    runId := runId,
    artifactKey := artifactKeyOf runId "header_spec.json",
    selectedCandidateId := "manual",
    candidates :=
      [{ candidateId := "manual",
         headerRows := headerRows.getD [headerRowIndex],
         mergeStrategy := mergeStrategy.getD "single",
         normalizedHeaders := finalHeaders, confidence := 9/10,
         evidenceKeys := [evidence.artifactKey] }],
    needsHumanConfirmation := false, alternatives := [] }
  let store1 := store.put (storeKey runId "header_spec.json") (.headerSpec spec)
  let store2 := appendShadow store1 runId "header_override_applied"
  (store2, finalHeaders, headerRowIndex)

/-- `excel_flow._read_data_rows`: all rows strictly below the header row
(the csv branch; the xlsx `iloc[header_row+1:]` agrees for every header
row ≥ −1, and the callers produce non-negative rows). -/
def readDataRows (grid : List (List String)) (headerRow : Int) :
    List (List String) :=
  (grid.enum.filter fun p => decide (headerRow < (p.1 : Int))).map (·.2)

/-- `excel_flow._apply_table_region`. -/
def applyTableRegion (headers : List String) (dataRows : List (List String))
    (headerRow : Int) (startRow endRow : Option Int)
    (includeColumnsOpt excludeColumnsOpt : Option (List String)) :
    List String × List (List String) :=
  let dataStartIndex := headerRow + 1
  let startOffset : Nat := match startRow with
    | some sr => (max 0 (sr - dataStartIndex)).toNat
    | none => 0
  let endOffset : Option Nat := match endRow with
    | some er => some (max 0 (er - dataStartIndex)).toNat
    | none => none
  let dataRows := match endOffset with
    | some eo => (dataRows.take (eo + 1)).drop startOffset
    | none => dataRows.drop startOffset
  let includeColumns := includeColumnsOpt.getD []
  let excludeColumns := excludeColumnsOpt.getD []
  let keep : List Nat :=
    if !includeColumns.isEmpty then
      (headers.enum.filter fun p => includeColumns.contains p.2).map (·.1)
    else if !excludeColumns.isEmpty then
      (headers.enum.filter fun p => !(excludeColumns.contains p.2)).map (·.1)
    else List.range headers.length
  let headers2 := keep.map fun idx => headers.getD idx ""
  let filteredRows := dataRows.map fun row =>
    keep.map fun idx => if idx < row.length then row.getD idx "" else ""
  (headers2, filteredRows)

/-- The shared write-out tail of `excel_flow._write_schema_and_output`
(schema spec, `output/clean.csv`, save manifest). -/
def finishSchema (store : Store) (runId : String) (layer : String)
    (schemaFields : List (String × String × String × Bool))
    (evidenceKeys : List String) (headers : List String)
    (rows : List (List String)) : Store :=
  let store1 := store.put (storeKey runId "schema_spec.json")
    (.schemaSpec runId (artifactKeyOf runId "schema_spec.json") layer
      schemaFields (7/10) evidenceKeys)
  let store2 := store1.put (storeKey runId "output/clean.csv")
    (.csvText headers rows)
  store2.put (storeKey runId "save_manifest.json")
    (.saveManifest runId (artifactKeyOf runId "save_manifest.json")
      [artifactKeyOf runId "output/clean.csv"]
      [uriForKey (storeKey runId "output/clean.csv")]
      [artifactKeyOf runId "schema_spec.json"])

/-- `excel_flow._write_schema_and_output`. -/
def writeSchemaAndOutput (dp : String → Option String) (store : Store)
    (runId : String) (dataRows : List (List String)) (headers : List String)
    (adapterSpec : Option (Option (List String) × Option (List (String × String)) ×
      Option (List (String × String)) × Option (List String) ×
      Option (List String))) : Store :=
  let rows := dataRows
  match adapterSpec with
  | some a =>
    let canonicalFields := a.1.getD []
    let fieldMap := a.2.1.getD []
    let types := a.2.2.1.getD []
    let requiredFields := a.2.2.2.1.getD []
    let outputHeaders :=
      let fromCanonical := canonicalFields.filter fun f =>
        (fieldMap.find? fun p => p.1 == f).isSome
      if fromCanonical.isEmpty then fieldMap.map (·.1) else fromCanonical
    let headerIndex := headers.enum.foldl (fun acc p => dictPut acc p.2 p.1) []
    let mappedRows := rows.map fun row =>
      outputHeaders.map fun canonical =>
        match fieldMap.find? fun p => p.1 == canonical with
        | none => ""
        | some p =>
          match headerIndex.find? fun q => q.1 == p.2 with
          | some q => if q.2 < row.length then row.getD q.2 "" else ""
          | none => ""
    let typesByHeader := outputHeaders.map fun h => dictGet types h "string"
    let rows2 := applyTypeEnforcement dp mappedRows typesByHeader
    let schemaFields := outputHeaders.map fun canonical =>
      (dictGet fieldMap canonical "", canonical, dictGet types canonical "string",
        requiredFields.contains canonical)
    let evidenceKeys := match a.2.2.2.2 with
      | some l => if l.isEmpty then [artifactKeyOf runId "header_spec.json"] else l
      | none => [artifactKeyOf runId "header_spec.json"]
    finishSchema store runId "adapter" schemaFields evidenceKeys outputHeaders rows2
  | none =>
    let columns := if rows.isEmpty then headers.map fun _ => ([] : List String)
      else zipColumns rows
    let schemaFields := headers.enum.map fun p =>
      let values := columns.getD p.1 []
      (p.2, p.2, inferDtypeStr values,
        if values.isEmpty then false
        else values.all fun v => !(pyStrip v).isEmpty)
    finishSchema store runId "core" schemaFields
      [artifactKeyOf runId "header_spec.json"] headers rows

/-- The tail of `puhemies_continue` once headers and the header row are
established: read the data rows, apply the optional table region and
adapter schema, and write the outputs. -/
def continueExtraction (dp : String → Option String) (store : Store)
    (runId : String) (localInput : Option InputFile)
    (evidence : EvidencePacket) (headers : List String) (headerRow : Int) :
    Store × Except String PuhemiesResponse :=
  let dataRows := match localInput with
    | some inp => readDataRows inp.grid headerRow
    | none => pySliceFrom evidence.previewRows (headerRow + 1)
  let adapterSpec := match store.get (storeKey runId "adapter_schema_spec.json") with
    | some (.adapterSpec cf fm ty rq ek) => some (cf, fm, ty, rq, ek)
    | _ => none
  let region := store.get (storeKey runId "table_region.json")
  let tr := match region with
    | some (.tableRegion sr er ic ec) => applyTableRegion headers dataRows headerRow sr er ic ec
    | _ => (headers, dataRows)
  let store1 := writeSchemaAndOutput dp store runId tr.2 tr.1 adapterSpec
  (store1, .ok
    { runId := runId, status := "ok",
      message := "Schema created and output saved.", question := none,
      choices := none, nextStep := some "review_artifacts" })

/-- `puhemies_continue` after the file-hash guard: manual recipe first,
then header override, then human confirmation, else suspend. -/
def puhemiesContinueAfterGuard (dp : String → Option String) (nowStr : String)
    (store : Store) (runId : String) (localInput : Option InputFile)
    (evidence : EvidencePacket) : Store × Except String PuhemiesResponse :=
  match store.get (storeKey runId "manual_recipe.json") with
  | some (.manualRecipe recipe) =>
    let r := applyManualRecipe dp nowStr store runId recipe evidence localInput
    match r.2 with
    | .error msg =>
      (r.1, .ok
        { runId := runId, status := "needs_human_confirmation",
          message := msg, question := some "Please fix manual_recipe.json and retry.",
          choices := none, nextStep := some "fix_manual_recipe" })
    | .ok _ =>
      (r.1, .ok
        { runId := runId, status := "ok",
          message := "Manual recipe applied and outputs saved.", question := none,
          choices := none, nextStep := some "review_artifacts" })
  | _ =>
    match store.get (storeKey runId "header_override.json") with
    | some (.headerOverride _sheetName hri eh hrs ms) =>
      let ao := applyHeaderOverride store runId hri eh hrs ms evidence localInput
      continueExtraction dp ao.1 runId localInput evidence ao.2.1 ao.2.2
    | _ =>
      if (store.get (storeKey runId "human_confirmation.json")).isNone then
        (store, .ok
          { runId := runId, status := "needs_human_confirmation",
            message := "Missing human confirmation.",
            question := some "Provide confirmed header candidate id.",
            choices := none, nextStep := some "write_human_confirmation" })
      else
        match store.get (storeKey runId "header_spec.json"),
          store.get (storeKey runId "human_confirmation.json") with
        | some (.headerSpec hs), some (.humanConfirmation confirmedId) =>
          let sel : Option Candidate := match confirmedId with
            | some cid => hs.candidates.find? fun c => c.candidateId == cid
            | none => none
          match sel with
          | none =>
            (store, .ok
              { runId := runId, status := "needs_human_confirmation",
                message := "Confirmed header candidate not found.",
                question := some "Provide a valid header candidate id.",
                choices := none, nextStep := some "write_human_confirmation" })
          | some selc =>
            let store1 := appendShadow store runId "human_confirmation_received"
            match selc.headerRows with
            | [] => (store1, .error "IndexError: header_rows is empty")
            | hr :: _ =>
              continueExtraction dp store1 runId localInput evidence
                selc.normalizedHeaders hr
        | _, _ => (store, .error "header_spec.json missing or unreadable")

/-- `excel_flow.puhemies_continue`.  `localInput` is the outcome of
`_prepare_local_input` (a filesystem/store oracle); its `fileHash` field is
what `_hash_file` returns on it.  `.error` marks an uncaught Python
exception. -/
def puhemiesContinue (dp : String → Option String) (nowStr : String)
    (store : Store) (runId : String) (localInput : Option InputFile) :
    Store × Except String PuhemiesResponse :=
  match store.get (storeKey runId "evidence_packet.json") with
  | some (.evidencePacket evidence) =>
    match optTruthy evidence.fileHash, localInput with
    | some h, some f =>
      if !(f.fileHash == h) then
        let store1 := appendShadow store runId "resume_guard_file_changed"
        (store1, .ok
          { runId := runId, status := "needs_human_confirmation",
            message := "Input file has changed since the run started.",
            question := some "Please re-run with the updated file.",
            choices := none, nextStep := some "rerun_required" })
      else puhemiesContinueAfterGuard dp nowStr store runId localInput evidence
    | some _, none =>
      let store1 := appendShadow store runId "resume_guard_source_missing"
      puhemiesContinueAfterGuard dp nowStr store1 runId localInput evidence
    | none, _ => puhemiesContinueAfterGuard dp nowStr store runId localInput evidence
  | _ => (store, .error "FileNotFoundError: evidence_packet.json")

/-! ## Concrete inputs used by counterexamples and witnesses, and the
claim-shaped predicates that the theorems compare against -/

/-- The `contact` condition actually implemented (any `new` related
cluster, or any critical-sounding incident reason, regardless of pairing). -/
def codeContactCond (score : Int) (prevScore : Option Int)
    (relatedClusters : List ClusterRef) (reasons : List String) : Prop :=
  (∃ c ∈ relatedClusters, c.status = "spiking") ∨
  (∃ c ∈ relatedClusters, c.status = "new") ∨
  (∃ r ∈ reasons, criticalReason r = true) ∨
  (70 ≤ score ∧ (prevScore = none ∨ ∃ p, prevScore = some p ∧ 5 ≤ score - p))

/-- The `monitor` fallback condition (score ≥ 50 or delta ≥ 10). -/
def codeMonitorCond (score : Int) (prevScore : Option Int) : Prop :=
  50 ≤ score ∨ ∃ p, prevScore = some p ∧ 10 ≤ score - p

/-- An event tagged `disk_full` with all fields well-formed. -/
def diskEvent : Event :=
  { ts := .val "x", level := .val "Error", provider := .val "P",
    source := .absent, eventId := .val 1, message := .val "m",
    recordId := .absent, tags := .val ["disk_full"] }

/-- Six disk-full events: the disk detector's severity saturates at 90 here. -/
def c3events : List Event := List.replicate 6 diskEvent

/-- Two disk-full events, used by the witness. -/
def c3two : List Event := List.replicate 2 diskEvent

/-- The cleaned evidence record of `diskEvent`. -/
def diskEvidenceRec : EvidenceRec :=
  { ts := some "x", provider := some "P", level := some "Error",
    message := "m", eventId := some 1, source := none, recordId := none }

/-- The incident `_detect_disk_full` emits on `c3two` (timestamp parser
that never parses, `now = 0`). -/
def c3incTwo : Incident :=
  { id := "", type := "disk_full", title := "Disk near capacity",
    summary := some "Disk usage approaching capacity",
    severity := 75, confidence := min (19/20) (7/10 + (1/20) * ((2 : Nat) : ℚ)),
    recommendedActions := recommendedActionsFor "disk_full",
    evidence := [diskEvidenceRec, diskEvidenceRec],
    clusterSignature := "P|1|m",
    clusterBasis := { provider := some "P", eventId := some 1, template := "m" },
    start := 0, stop := 0 }

/-- An event whose `source` key is present but null. -/
def nullSourceEvent : Event :=
  { ts := .val "t", level := .val "E", provider := .val "P", source := .null,
    eventId := .absent, message := .val "m", recordId := .absent, tags := .absent }

/-- An event whose `tags` key is present but null. -/
def nullTagsEvent : Event :=
  { ts := .val "t", level := .val "E", provider := .val "P", source := .absent,
    eventId := .absent, message := .val "m", recordId := .absent, tags := .null }

/-- One event with every optional field absent and an unparseable
timestamp: the detectors must tolerate it. -/
def c6okEvents : List Event :=
  [{ ts := .val "notadate", level := .absent, provider := .absent,
     source := .absent, eventId := .absent, message := .absent,
     recordId := .absent, tags := .absent }]

/-- The snapshot entry `_load_snapshots` builds for an eligible file. -/
def snapEntryOf (now : Int) (f : SnapFile) : SnapEntry :=
  ⟨f.key, f.dataHostId, f.windowEnd.getD now⟩

/-- Snapshot fixture: host `bbb`, one in-window snapshot. -/
def c7fileB : SnapFile :=
  { key := "run/snapshots/bbb/snapshot-20260101T000000Z.json", parses := true,
    dataHostId := some "bbb", windowEnd := some 50, receiptTime := none }

/-- Snapshot fixture: host `aaa`, first in-window snapshot. -/
def c7fileA1 : SnapFile :=
  { key := "run/snapshots/aaa/snapshot-20260101T000000Z.json", parses := true,
    dataHostId := some "aaa", windowEnd := some 10, receiptTime := none }

/-- Snapshot fixture: host `aaa`, second in-window snapshot. -/
def c7fileA2 : SnapFile :=
  { key := "run/snapshots/aaa/snapshot-20260102T000000Z.json", parses := true,
    dataHostId := some "aaa", windowEnd := some 20, receiptTime := none }

/-- Two hosts, three in-window snapshots. -/
def c7files : List SnapFile := [c7fileB, c7fileA1, c7fileA2]

/-- A bucket list holds an entry. -/
def bucketsHave (l : List (String × List SnapEntry)) (x : SnapEntry) : Prop :=
  ∃ k vs, (k, vs) ∈ l ∧ x ∈ vs

/-- A recipe whose single field is a valid metadata pointer (no column
fields at all). -/
def c9recipe : Recipe :=
  { fields :=
      [{ target := some "report_date", targetName := none,
         sourcePointer := some (.obj [("row", .i 0), ("col", .i 1)]),
         sourceType := some "metadata", dataType := none }],
    headerRowIndex := none, headerRow := none, headerRowIdx := none,
    mergeMetadataFields := none, mergeMetadata := false }

/-- The evidence packet of the C9 witness run (no file hash recorded). -/
def c9evidence : EvidencePacket :=
  { runId := "r9", artifactKey := artifactKeyOf "r9" "evidence_packet.json",
    previewRows := [["Report Date", "2025-01-01"]],
    notes := "synthetic preview rows", sourceUri := none,
    inputArtifactKey := none, fileHash := none, structuralHash := some "h9",
    sheetName := none, inputFilename := none }

/-- The stored state of the C9 witness run. -/
def c9store : Store :=
  [(storeKey "r9" "evidence_packet.json", .evidencePacket c9evidence),
   (storeKey "r9" "manual_recipe.json", .manualRecipe c9recipe)]

/-- The local input of the C9 witness run. -/
def c9input : InputFile :=
  { grid := [["Report Date", "2025-01-01"]], fileHash := "f9" }

/-- The evidence packet the orchestrator writes for an empty preview,
as a function of its inputs (used in the C1 theorems). -/
def c1Evidence (runId : String) (fp su iak sh fh sn : Option String)
    (sha : String → String) : EvidencePacket :=
  { runId := runId,
    artifactKey := artifactKeyOf runId "evidence_packet.json",
    previewRows := [],
    notes := "synthetic preview rows",
    sourceUri :=
      match optTruthy su, optTruthy fp with
      | some u, _ => some u
      | none, some p => some ("file://" ++ p)
      | none, none => none,
    inputArtifactKey := optTruthy iak,
    fileHash := optTruthy fh,
    structuralHash := some (pyOrStr (optTruthy sh)
      (computeStructuralHash sha [] (pyOrOptStr fp su))),
    sheetName := optTruthy sn,
    inputFilename := optTruthy
      (some (pyBasename (pyOrStr (pyOrOptStr fp su) ""))) }

/-- The header spec the orchestrator writes for an empty preview
(used in the C1 theorems). -/
def c1HeaderSpec (runId : String) : HeaderSpecDoc :=
  { runId := runId,
    artifactKey := artifactKeyOf runId "header_spec.json",
    selectedCandidateId := "",
    candidates := [],
    needsHumanConfirmation := false,
    alternatives := [] }

/-! ## Helper lemmas -/

theorem toList_mk (l : List Char) : (String.mk l).toList = l := rfl

theorem string_append_left_cancel (r a b : String) (h : a ≠ b) :
    r ++ a ≠ r ++ b := by
  intro he
  apply h
  have hd : (r ++ a).data = (r ++ b).data := congrArg String.data he
  rw [String.data_append, String.data_append] at hd
  have had := List.append_cancel_left hd
  cases a with
  | mk da =>
    cases b with
    | mk db =>
      simp only at had
      rw [had]

theorem store_get_cons (p : String × Artifact) (l : Store) (k : String) :
    Store.get (p :: l) k = if p.1 == k then some p.2 else Store.get l k := by
  simp only [Store.get, List.find?]
  cases h : (p.1 == k) <;> simp [h]

theorem store_put_cons (p : String × Artifact) (l : Store) (k : String)
    (a : Artifact) :
    Store.put (p :: l) k a =
      if p.1 == k then (p.1, a) :: l else p :: Store.put l k a := rfl

theorem store_get_put_self (s : Store) (k : String) (a : Artifact) :
    (s.put k a).get k = some a := by
  induction s with
  | nil => simp [Store.put, Store.get]
  | cons p rest ih =>
    rw [store_put_cons]
    cases h : (p.1 == k) with
    | true => simp [store_get_cons, h]
    | false => simp [store_get_cons, h, ih]

theorem store_get_put_other (s : Store) (k k' : String) (a : Artifact)
    (h : k' ≠ k) : (s.put k a).get k' = s.get k' := by
  induction s with
  | nil =>
    have hk : (k == k') = false := by simpa using Ne.symm h
    simp [Store.put, Store.get, List.find?, hk]
  | cons p rest ih =>
    rw [store_put_cons]
    cases hp : (p.1 == k) with
    | true =>
      have hp1 : p.1 = k := by simpa using hp
      have h2 : (p.1 == k') = false := by
        rw [hp1]; simpa using Ne.symm h
      simp [store_get_cons, h2]
    | false =>
      simp only [Bool.false_eq_true, if_false]
      rw [store_get_cons, store_get_cons]
      cases hpk : (p.1 == k') <;> simp [hpk, ih]

/-! ## Claim C5: the data-like header test -/

/-- C5 counterexample: with headers `["7", "a", "b"]` only one of three
headers looks numeric — less than half — yet `_header_looks_like_data`
returns true (its threshold is `max 1 (3 / 2) = 1`). -/
theorem c5_counterexample :
    headerLooksLikeData ["7", "a", "b"] = true ∧
      ¬ specAtLeastHalfNumeric ["7", "a", "b"] := by
  constructor
  · decide
  · unfold specAtLeastHalfNumeric
    decide

/-- C5 (amended): the data-like test — shared by the 0.2 confidence
penalty in `_build_header_candidates` and the ambiguity gate in
`puhemies_orchestrate` — holds exactly when the header list is empty, or
when at least `max 1 (⌊n/2⌋)` of the n normalized headers look numeric
(digits with an optional single dot). -/
theorem c5_data_like_test (headers : List String) :
    headerLooksLikeData headers = true ↔
      (headers = [] ∨
        max 1 (headers.length / 2) ≤ headers.countP fun h => numericLike h) := by
  cases headers with
  | nil => simp [headerLooksLikeData]
  | cons a t => simp [headerLooksLikeData]

/-! ## Claim C8: the structural hash ignores the filename -/

/-- C8: `_compute_structural_hash` depends only on the `|`-joined,
whitespace-collapsed, lowercased normalization of the first five preview
rows; the file label plays no part, so equal normalizations give equal
digests regardless of the files' names. -/
theorem c8_structural_hash (sha : String → String)
    (rows1 rows2 : List (List String)) (l1 l2 : Option String)
    (h : normalizedPreview rows1 = normalizedPreview rows2) :
    computeStructuralHash sha rows1 l1 = computeStructuralHash sha rows2 l2 := by
  unfold computeStructuralHash
  rw [h]

/-- C8 witness: two one-row previews with different raw text and labels
but identical normalizations. -/
theorem c8_structural_hash_witness :
    computeStructuralHash (fun s => s) [["A  b"]] (some "x.csv") =
      computeStructuralHash (fun s => s) [["a b "]] (some "y.csv") :=
  c8_structural_hash (fun s => s) [["A  b"]] [["a b "]]
    (some "x.csv") (some "y.csv") (by decide)

/-! ## Claim C2: the per-host action decision -/

/-- C2 counterexample: a host with score 40, no prior score, whose only
related cluster is `new` of type `disk_full` (not critical) gets action
`contact` from the code, although the claim's condition — which requires
the new cluster to also be critical — does not hold (the claim would
assign `ignore`). -/
theorem c2_counterexample :
    (hostAction 40 none [⟨"new", "disk_full"⟩] ["disk_full (sev 70)"]).1 = "contact" ∧
      ¬ specContactCond 40 none [⟨"new", "disk_full"⟩] := by
  constructor
  · rfl
  · unfold specContactCond
    decide

theorem action_shape (cB mB : Bool) :
    ((if cB then ("contact" : String) else if mB then "monitor" else "ignore") =
        "contact" ↔ cB = true) ∧
    ((if cB then ("contact" : String) else if mB then "monitor" else "ignore") =
        "monitor" ↔ (cB = false ∧ mB = true)) ∧
    ((if cB then ("contact" : String) else if mB then "monitor" else "ignore") =
        "ignore" ↔ (cB = false ∧ mB = false)) := by
  cases cB <;> cases mB <;> refine ⟨?_, ?_, ?_⟩ <;> simp

theorem fst_ite {c : Prop} [Decidable c] (x y : String × Option Int × String) :
    (if c then x else y).1 = if c then x.1 else y.1 := by
  split <;> rfl

theorem hostAction_eq_ite (score : Int) (prev : Option Int)
    (cls : List ClusterRef) (reasons : List String) :
    (hostAction score prev cls reasons).1 =
      (if ((((cls.any fun c => c.status == "new") || reasons.any criticalReason) ||
            (cls.any fun c => c.status == "spiking")) ||
              (decide (70 ≤ score) && (prev.isNone ||
                match prev with
                | some p => decide (5 ≤ score - p)
                | none => false))) then "contact"
       else if (decide (50 ≤ score) ||
            match prev with
            | some p => decide (10 ≤ score - p)
            | none => false) then "monitor"
       else "ignore") := by
  cases prev <;> simp only [hostAction, actionForHost, fst_ite]

theorem c2_contact_bool (score : Int) (prev : Option Int)
    (cls : List ClusterRef) (reasons : List String) :
    (((((cls.any fun c => c.status == "new") || reasons.any criticalReason) ||
        (cls.any fun c => c.status == "spiking")) ||
          (decide (70 ≤ score) && (prev.isNone ||
            match prev with
            | some p => decide (5 ≤ score - p)
            | none => false))) = true) ↔
      codeContactCond score prev cls reasons := by
  cases prev <;>
    simp [codeContactCond, List.any_eq_true] <;>
    aesop

theorem c2_monitor_bool (score : Int) (prev : Option Int) :
    ((decide (50 ≤ score) ||
        match prev with
        | some p => decide (10 ≤ score - p)
        | none => false) = true) ↔
      codeMonitorCond score prev := by
  cases prev <;> simp [codeMonitorCond]

/-- C2 (amended): a top host's action is `contact` exactly when it has a
spiking related cluster, or **any** `new` related cluster (critical or
not), or **any** incident reason mentioning bsod/unexpected_shutdown
(whatever the cluster status), or score ≥ 70 with no prior score or a
delta ≥ 5; otherwise `monitor` exactly when score ≥ 50 or delta ≥ 10;
otherwise `ignore`. -/
theorem c2_host_action (score : Int) (prevScore : Option Int)
    (relatedClusters : List ClusterRef) (reasons : List String) :
    ((hostAction score prevScore relatedClusters reasons).1 = "contact" ↔
      codeContactCond score prevScore relatedClusters reasons) ∧
    ((hostAction score prevScore relatedClusters reasons).1 = "monitor" ↔
      (¬ codeContactCond score prevScore relatedClusters reasons ∧
        codeMonitorCond score prevScore)) ∧
    ((hostAction score prevScore relatedClusters reasons).1 = "ignore" ↔
      (¬ codeContactCond score prevScore relatedClusters reasons ∧
        ¬ codeMonitorCond score prevScore)) := by
  rw [hostAction_eq_ite]
  have hs := action_shape
    ((((relatedClusters.any fun c => c.status == "new") || reasons.any criticalReason) ||
      (relatedClusters.any fun c => c.status == "spiking")) ||
        (decide (70 ≤ score) && (prevScore.isNone ||
          match prevScore with
          | some p => decide (5 ≤ score - p)
          | none => false)))
    (decide (50 ≤ score) ||
      match prevScore with
      | some p => decide (10 ≤ score - p)
      | none => false)
  rw [hs.1, hs.2.1, hs.2.2]
  rw [← c2_contact_bool score prevScore relatedClusters reasons,
    ← c2_monitor_bool score prevScore]
  refine ⟨Iff.rfl, ?_, ?_⟩ <;>
    simp [Bool.not_eq_true, Option.isSome_iff_ne_none, ne_eq]

/-! ## Claim C10: retention purge -/

theorem purge_foldl_mem (cutoff : Int) (keepRun : String)
    (runs : List (String × RunInfo)) (acc : List String) (r : String) :
    (r ∈ runs.foldl (fun deleted p =>
        if p.1 = "history" then deleted
        else if p.1 = keepRun then deleted
        else if p.2.pinned then deleted
        else
          match runGeneratedAt p.2 with
          | some t => if t < cutoff then deleted ++ [p.1] else deleted
          | none => deleted) acc) ↔
      (r ∈ acc ∨ ∃ info, (r, info) ∈ runs ∧ r ≠ "history" ∧ r ≠ keepRun ∧
        info.pinned = false ∧ ∃ t, runGeneratedAt info = some t ∧ t < cutoff) := by
  induction runs generalizing acc with
  | nil => simp
  | cons a t ih =>
    rw [List.foldl_cons, ih]
    by_cases h1 : a.1 = "history"
    · rw [if_pos h1]
      constructor
      · rintro (h | ⟨info, hm, hcond⟩)
        · exact Or.inl h
        · exact Or.inr ⟨info, List.mem_cons_of_mem _ hm, hcond⟩
      · rintro (h | ⟨info, hm, hne, hcond⟩)
        · exact Or.inl h
        · rcases List.mem_cons.mp hm with he | hm2
          · exact absurd (congrArg Prod.fst he) (by simpa [h1] using hne)
          · exact Or.inr ⟨info, hm2, hne, hcond⟩
    · by_cases h2 : a.1 = keepRun
      · rw [if_neg h1, if_pos h2]
        constructor
        · rintro (h | ⟨info, hm, hcond⟩)
          · exact Or.inl h
          · exact Or.inr ⟨info, List.mem_cons_of_mem _ hm, hcond⟩
        · rintro (h | ⟨info, hm, hne1, hne2, hcond⟩)
          · exact Or.inl h
          · rcases List.mem_cons.mp hm with he | hm2
            · exact absurd (congrArg Prod.fst he) (by simpa [h2] using hne2)
            · exact Or.inr ⟨info, hm2, hne1, hne2, hcond⟩
      · by_cases h3 : a.2.pinned
        · rw [if_neg h1, if_neg h2, if_pos h3]
          constructor
          · rintro (h | ⟨info, hm, hcond⟩)
            · exact Or.inl h
            · exact Or.inr ⟨info, List.mem_cons_of_mem _ hm, hcond⟩
          · rintro (h | ⟨info, hm, hne1, hne2, hpin, hcond⟩)
            · exact Or.inl h
            · rcases List.mem_cons.mp hm with he | hm2
              · rw [← he] at h3
                simp [hpin] at h3
              · exact Or.inr ⟨info, hm2, hne1, hne2, hpin, hcond⟩
        · cases hg : runGeneratedAt a.2 with
          | none =>
            rw [if_neg h1, if_neg h2, if_neg h3]
            constructor
            · rintro (h | ⟨info, hm, hcond⟩)
              · exact Or.inl h
              · exact Or.inr ⟨info, List.mem_cons_of_mem _ hm, hcond⟩
            · rintro (h | ⟨info, hm, hne1, hne2, hpin, tv, hgen, htc⟩)
              · exact Or.inl h
              · rcases List.mem_cons.mp hm with he | hm2
                · rw [← he] at hg
                  simp [hg] at hgen
                · exact Or.inr ⟨info, hm2, hne1, hne2, hpin, tv, hgen, htc⟩
          | some tv =>
            by_cases h4 : tv < cutoff
            · rw [if_neg h1, if_neg h2, if_neg h3]
              rw [show (match (some tv : Option Int) with
                | some t => if t < cutoff then acc ++ [a.1] else acc
                | none => acc) = if tv < cutoff then acc ++ [a.1] else acc from rfl,
                if_pos h4]
              constructor
              · rintro (h | ⟨info, hm, hcond⟩)
                · rcases List.mem_append.mp h with h | h
                  · exact Or.inl h
                  · have hr : r = a.1 := by simpa using h
                    exact Or.inr ⟨a.2, by rw [hr]; exact List.mem_cons_self _ _,
                      by rw [hr]; exact h1, by rw [hr]; exact h2,
                      by simpa using h3, tv, hg, h4⟩
                · exact Or.inr ⟨info, List.mem_cons_of_mem _ hm, hcond⟩
              · rintro (h | ⟨info, hm, hne1, hne2, hpin, tw, hgen, htc⟩)
                · exact Or.inl (List.mem_append.mpr (Or.inl h))
                · rcases List.mem_cons.mp hm with he | hm2
                  · have hr : r = a.1 := congrArg Prod.fst he
                    exact Or.inl (List.mem_append.mpr (Or.inr (by simp [hr])))
                  · exact Or.inr ⟨info, hm2, hne1, hne2, hpin, tw, hgen, htc⟩
            · rw [if_neg h1, if_neg h2, if_neg h3]
              rw [show (match (some tv : Option Int) with
                | some t => if t < cutoff then acc ++ [a.1] else acc
                | none => acc) = if tv < cutoff then acc ++ [a.1] else acc from rfl,
                if_neg h4]
              constructor
              · rintro (h | ⟨info, hm, hcond⟩)
                · exact Or.inl h
                · exact Or.inr ⟨info, List.mem_cons_of_mem _ hm, hcond⟩
              · rintro (h | ⟨info, hm, hne1, hne2, hpin, tw, hgen, htc⟩)
                · exact Or.inl h
                · rcases List.mem_cons.mp hm with he | hm2
                  · rw [← he] at hg
                    rw [hg] at hgen
                    cases hgen
                    exact absurd htc h4
                  · exact Or.inr ⟨info, hm2, hne1, hne2, hpin, tw, hgen, htc⟩

/-- C10: `purge_old_runs` deletes a run exactly when it is listed by the
store, is not the `history` prefix, is not the current run, is not pinned,
and its `fleet_summary.json` has a parseable `generated_at` older than the
retention cutoff.  Runs without a parseable `generated_at` are never
deleted, however old. -/
theorem c10_purge_old_runs (runs : List (String × RunInfo)) (cutoff : Int)
    (keepRun r : String) :
    r ∈ purgeOldRuns runs cutoff keepRun ↔
      ∃ info, (r, info) ∈ runs ∧ r ≠ "history" ∧ r ≠ keepRun ∧
        info.pinned = false ∧
        ∃ t, runGeneratedAt info = some t ∧ t < cutoff := by
  unfold purgeOldRuns
  rw [purge_foldl_mem]
  simp

/-! ## Claim C3: disk-full severity and confidence -/

/-- C3 counterexample: with six disk-full evidence events the code's
severity is `70 + min(20, 5·(6−1)) = 90`, while the claim's formula
`min(95, 70 + 5·(6−1))` gives 95. -/
theorem c3_counterexample :
    filterE diskPred c3events = .ok c3events ∧
    ((detectDiskFull (fun _ => none) 0 c3events).toOption.join.map
        Incident.severity) = some 90 ∧
    ¬ (90 : Int) = min 95 (70 + 5 * ((6 : Int) - 1)) := by
  refine ⟨by rfl, by rfl, by decide⟩

/-- C3 (amended): whenever `_detect_disk_full` fires with evidence list
`ev` (the events tagged `disk_full` or whose source contains "disk"), the
incident's severity is `70 + min(20, 5·(n−1)) = min(90, 70 + 5·(n−1))` —
the cap is 90, not 95 — and its confidence is `min(0.95, 0.7 + 0.05·n)`,
where `n = |ev|`. -/
theorem c3_disk_full_scores (pt : String → Option Int) (now : Int)
    (events ev : List Event) (inc : Incident)
    (hev : filterE diskPred events = .ok ev)
    (hinc : detectDiskFull pt now events = .ok (some inc)) :
    inc.severity = min 90 (70 + 5 * ((ev.length : Int) - 1)) ∧
    inc.confidence = min (19/20) (7/10 + (1/20) * (ev.length : ℚ)) := by
  unfold detectDiskFull at hinc
  rw [hev] at hinc
  cases ev with
  | nil =>
    simp [Bind.bind, Except.bind, Pure.pure, Except.pure] at hinc
  | cons e0 rest =>
    cases hsig : signatureForEvent (e0.provider.get "") e0.eventId.getOpt
        (e0.message.get "") with
    | error e =>
      simp [Bind.bind, Except.bind, hsig] at hinc
    | ok sp =>
      simp only [Bind.bind, Except.bind, hsig, Pure.pure, Except.pure,
        Except.ok.injEq, Option.some.injEq] at hinc
      have hsev := congrArg Incident.severity hinc
      have hconf := congrArg Incident.confidence hinc
      dsimp only at hsev hconf
      constructor
      · rw [← hsev]
        have hlen : (0 : Int) ≤ ((e0 :: rest).length : Int) - 1 := by
          rw [List.length_cons]
          push_cast
          omega
        generalize hm : ((e0 :: rest).length : Int) - 1 = m at hlen ⊢
        omega
      · rw [← hconf]

/-- C3 witness: the amended formulas evaluated on two disk-full events. -/
theorem c3_disk_full_scores_witness :
    c3incTwo.severity = min 90 (70 + 5 * ((c3two.length : Int) - 1)) ∧
    c3incTwo.confidence = min (19/20) (7/10 + (1/20) * (c3two.length : ℚ)) :=
  c3_disk_full_scores (fun _ => none) 0 c3two c3two c3incTwo (by rfl) (by rfl)

/-! ## Claim C4: the two per-field cleaning layers -/

/-- C4 counterexample: on the cell `"12-34"` with data type `number`, the
adapter layer captures `"12"` (numeric value 12) while the manual-recipe
layer strips to `"12-34"`, fails `float()`, and yields `None`. -/
theorem c4_counterexample :
    cleanNumberValue "12-34" = "12" ∧ janitorCleanNumber "12-34" = none ∧
      numValue (cleanNumberValue "12-34") ≠ janitorCleanNumber "12-34" := by
  refine ⟨by decide, by decide, by decide⟩

theorem all_takeWhile' (p : Char → Bool) (l : List Char) :
    (l.takeWhile p).all p = true := by
  induction l with
  | nil => rfl
  | cons a t ih =>
    rw [List.takeWhile_cons]
    by_cases h : p a = true
    · simp [h, ih]
    · simp [h]

theorem takeWhile_append_all (p : Char → Bool) (l1 l2 : List Char)
    (h : l1.all p = true) : (l1 ++ l2).takeWhile p = l1 ++ l2.takeWhile p := by
  induction l1 with
  | nil => simp
  | cons a t ih =>
    simp only [List.all_cons, Bool.and_eq_true] at h
    simp [List.takeWhile_cons, h.1, ih h.2]

theorem dropWhile_append_all (p : Char → Bool) (l1 l2 : List Char)
    (h : l1.all p = true) : (l1 ++ l2).dropWhile p = l2.dropWhile p := by
  induction l1 with
  | nil => simp
  | cons a t ih =>
    simp only [List.all_cons, Bool.and_eq_true] at h
    simp [List.dropWhile_cons, h.1, ih h.2]

theorem takeWhile_all_self (p : Char → Bool) (l : List Char)
    (h : l.all p = true) : l.takeWhile p = l := by
  have := takeWhile_append_all p l [] h
  simpa using this

theorem pyStripList_decomp (l : List Char) :
    ∃ t1 t2, l = t1 ++ pyStripList l ++ t2 ∧
      t1.all pyIsSpace = true ∧ t2.all pyIsSpace = true := by
  refine ⟨l.takeWhile pyIsSpace,
    ((l.dropWhile pyIsSpace).reverse.takeWhile pyIsSpace).reverse, ?_, ?_, ?_⟩
  · unfold pyStripList
    conv_lhs => rw [← List.takeWhile_append_dropWhile (p := pyIsSpace) (l := l)]
    rw [List.append_assoc]
    congr 1
    have hd := (List.takeWhile_append_dropWhile
      (p := pyIsSpace) (l := (l.dropWhile pyIsSpace).reverse)).symm
    calc l.dropWhile pyIsSpace
        = (l.dropWhile pyIsSpace).reverse.reverse := by rw [List.reverse_reverse]
      _ = (((l.dropWhile pyIsSpace).reverse.takeWhile pyIsSpace) ++
            ((l.dropWhile pyIsSpace).reverse.dropWhile pyIsSpace)).reverse := by
            rw [← hd]
      _ = ((l.dropWhile pyIsSpace).reverse.dropWhile pyIsSpace).reverse ++
            ((l.dropWhile pyIsSpace).reverse.takeWhile pyIsSpace).reverse := by
            rw [List.reverse_append]
  · exact all_takeWhile' _ _
  · rw [List.all_eq_true]
    intro a ha
    rw [List.mem_reverse] at ha
    have := List.all_eq_true.mp (all_takeWhile' pyIsSpace
      (l.dropWhile pyIsSpace).reverse) a ha
    exact this

theorem ne_nil_of_isEmpty_false {l : List Char} (h : l.isEmpty = false) :
    l ≠ [] := by
  intro he
  rw [he] at h
  simp at h

theorem simple_numeral_tail (rest : List Char)
    (h : (rest.isEmpty ||
        decide (rest.head? = some '.') && !(List.drop 1 rest).isEmpty &&
          (List.drop 1 rest).all Char.isDigit) = true) :
    rest = [] ∨ ∃ f, rest = '.' :: f ∧ f ≠ [] ∧ f.all Char.isDigit = true := by
  rcases Bool.or_eq_true _ _ |>.mp h with he | hdot
  · cases rest with
    | nil => exact Or.inl rfl
    | cons x xs => simp at he
  · rw [Bool.and_eq_true, Bool.and_eq_true] at hdot
    obtain ⟨⟨hhead, hne⟩, hall⟩ := hdot
    cases rest with
    | nil => simp at hhead
    | cons x xs =>
      have hx : x = '.' := by simpa using hhead
      simp only [List.drop_succ_cons, List.drop_zero] at hne hall
      rw [Bool.not_eq_true'] at hne
      exact Or.inr ⟨xs, by rw [hx], ne_nil_of_isEmpty_false hne, hall⟩

theorem simple_numeral_decomp (s : String) (h : isSimpleNumeral s = true) :
    ∃ sign ds tail, s.toList = sign ++ ds ++ tail ∧
      (sign = [] ∨ sign = ['-']) ∧ ds ≠ [] ∧ ds.all Char.isDigit = true ∧
      (tail = [] ∨ ∃ f, tail = '.' :: f ∧ f ≠ [] ∧ f.all Char.isDigit = true) := by
  unfold isSimpleNumeral at h
  by_cases hh : s.toList.head? = some '-'
  · rw [if_pos hh] at h
    obtain ⟨c, r, hcr⟩ : ∃ c r, s.toList = c :: r := by
      cases hc : s.toList with
      | nil => rw [hc] at hh; simp at hh
      | cons c r => exact ⟨c, r, rfl⟩
    have hc' : c = '-' := by rw [hcr] at hh; simpa using hh
    rw [hcr] at h
    simp only [List.drop_succ_cons, List.drop_zero] at h
    rw [Bool.and_eq_true, Bool.not_eq_true'] at h
    refine ⟨['-'], r.takeWhile Char.isDigit, r.dropWhile Char.isDigit, ?_,
      Or.inr rfl, ne_nil_of_isEmpty_false h.1, all_takeWhile' _ _,
      simple_numeral_tail _ h.2⟩
    rw [hcr, hc', List.append_assoc, List.takeWhile_append_dropWhile]
    rfl
  · rw [if_neg hh] at h
    rw [Bool.and_eq_true, Bool.not_eq_true'] at h
    refine ⟨[], s.toList.takeWhile Char.isDigit, s.toList.dropWhile Char.isDigit, ?_,
      Or.inl rfl, ne_nil_of_isEmpty_false h.1, all_takeWhile' _ _,
      simple_numeral_tail _ h.2⟩
    rw [List.nil_append, List.takeWhile_append_dropWhile]

theorem matchNum_numeral (ds tail : List Char) (hdig : ds.all Char.isDigit = true)
    (htail : tail = [] ∨ ∃ f, tail = '.' :: f ∧ f ≠ [] ∧ f.all Char.isDigit = true) :
    matchNum (ds ++ tail) = ds ++ tail := by
  unfold matchNum
  rw [takeWhile_append_all _ _ _ hdig, dropWhile_append_all _ _ _ hdig]
  rcases htail with rfl | ⟨f, rfl, hf, hfd⟩
  · simp
  · have hdot : List.takeWhile Char.isDigit ('.' :: f) = [] := by
      rw [List.takeWhile_cons]
      simp
    have hdrop : List.dropWhile Char.isDigit ('.' :: f) = '.' :: f := by
      rw [List.dropWhile_cons]
      simp
    rw [hdot, hdrop, List.append_nil]
    have hfs : List.takeWhile Char.isDigit f = f := takeWhile_all_self _ _ hfd
    simp only [hfs]
    rw [if_neg (by simpa [List.isEmpty_iff_eq_nil] using hf)]

theorem searchNumber_numeral (sign ds tail : List Char)
    (hsign : sign = [] ∨ sign = ['-']) (hds : ds ≠ [])
    (hdig : ds.all Char.isDigit = true)
    (htail : tail = [] ∨ ∃ f, tail = '.' :: f ∧ f ≠ [] ∧ f.all Char.isDigit = true) :
    searchNumber (sign ++ ds ++ tail) = some (sign ++ ds ++ tail) := by
  rcases hsign with rfl | rfl
  · cases ds with
    | nil => exact absurd rfl hds
    | cons d ds' =>
      have hd : d.isDigit = true := by
        rw [List.all_cons, Bool.and_eq_true] at hdig
        exact hdig.1
      have hdm : ¬ d = '-' := by
        intro he
        rw [he] at hd
        exact absurd hd (by decide)
      rw [List.nil_append, List.cons_append]
      unfold searchNumber
      rw [if_neg hdm, if_pos hd, ← List.cons_append]
      rw [matchNum_numeral _ _ hdig htail]
  · cases ds with
    | nil => exact absurd rfl hds
    | cons d ds' =>
      have hd : d.isDigit = true := by
        rw [List.all_cons, Bool.and_eq_true] at hdig
        exact hdig.1
      have heq : ['-'] ++ (d :: ds') ++ tail = '-' :: ((d :: ds') ++ tail) := by
        simp
      rw [heq]
      unfold searchNumber
      rw [if_pos rfl, List.cons_append]
      dsimp only
      rw [if_pos hd, ← List.cons_append, matchNum_numeral _ _ hdig htail]

theorem space_not_alpha (c : Char) (h : pyIsSpace c = true) :
    (c.isDigit || c = '.' || c = '-') = false := by
  unfold pyIsSpace at h
  simp only [Bool.or_eq_true, decide_eq_true_eq] at h
  rcases h with (((((h | h) | h) | h) | h) | h) <;> subst h <;> decide

theorem numeral_chars (sign ds tail : List Char)
    (hsign : sign = [] ∨ sign = ['-']) (hdig : ds.all Char.isDigit = true)
    (htail : tail = [] ∨ ∃ f, tail = '.' :: f ∧ f ≠ [] ∧ f.all Char.isDigit = true) :
    ∀ c ∈ sign ++ ds ++ tail, c.isDigit = true ∨ c = '.' ∨ c = '-' := by
  intro c hc
  rw [List.append_assoc, List.mem_append, List.mem_append] at hc
  rcases hc with hc | hc | hc
  · rcases hsign with rfl | rfl
    · simp at hc
    · right; right; simpa using hc
  · exact Or.inl (List.all_eq_true.mp hdig c hc)
  · rcases htail with rfl | ⟨f, rfl, _, hfd⟩
    · simp at hc
    · rcases List.mem_cons.mp hc with rfl | hcf
      · exact Or.inr (Or.inl rfl)
      · exact Or.inl (List.all_eq_true.mp hfd c hcf)

/-- C4 (amended, number part): when the trimmed cell text is a plain
signed decimal numeral, the adapter's number cleaner and the
manual-recipe layer's number cleaner agree in numeric value. -/
theorem c4_number_agree (v : String)
    (h : isSimpleNumeral (pyStrip v) = true) :
    numValue (cleanNumberValue v) = janitorCleanNumber v := by
  obtain ⟨sign, ds, tail, hm, hsign, hds, hdig, htail⟩ := simple_numeral_decomp _ h
  have hm' : pyStripList v.toList = sign ++ ds ++ tail := hm
  have hne : sign ++ ds ++ tail ≠ [] := by
    intro he
    rcases List.append_eq_nil.mp he with ⟨h1, _⟩
    rcases List.append_eq_nil.mp h1 with ⟨_, h2⟩
    exact hds h2
  have hclass := numeral_chars sign ds tail hsign hdig htail
  have hclean : cleanNumberValue v = String.mk (sign ++ ds ++ tail) := by
    unfold cleanNumberValue
    rw [hm']
    rw [if_neg (by simpa [List.isEmpty_iff_eq_nil] using hne)]
    have hcommas : removeCommas (sign ++ ds ++ tail) = sign ++ ds ++ tail := by
      unfold removeCommas
      rw [List.filter_eq_self]
      intro a ha
      rcases hclass a ha with hd | he | he
      · simp only [decide_eq_true_eq]
        intro hc
        rw [hc] at hd
        exact absurd hd (by decide)
      · rw [he]; decide
      · rw [he]; decide
    rw [hcommas, searchNumber_numeral sign ds tail hsign hds hdig htail]
  rw [hclean]
  have hj : janitorCleanNumber v = floatParseFiltered (sign ++ ds ++ tail) := by
    unfold janitorCleanNumber
    obtain ⟨t1, t2, hl, h1, h2⟩ := pyStripList_decomp v.toList
    rw [hm'] at hl
    have hfilter : v.toList.filter (fun c => c.isDigit || c = '.' || c = '-') =
        sign ++ ds ++ tail := by
      rw [hl, List.filter_append, List.filter_append]
      have hf1 : t1.filter (fun c => c.isDigit || c = '.' || c = '-') = [] := by
        rw [List.filter_eq_nil]
        intro a ha
        rw [space_not_alpha a (List.all_eq_true.mp h1 a ha)]
        simp
      have hf2 : t2.filter (fun c => c.isDigit || c = '.' || c = '-') = [] := by
        rw [List.filter_eq_nil]
        intro a ha
        rw [space_not_alpha a (List.all_eq_true.mp h2 a ha)]
        simp
      have hfm : (sign ++ ds ++ tail).filter
          (fun c => c.isDigit || c = '.' || c = '-') = sign ++ ds ++ tail := by
        rw [List.filter_eq_self]
        intro a ha
        rcases hclass a ha with hd | he | he
        · simp [hd]
        · rw [he]; decide
        · rw [he]; decide
      rw [hf1, hf2, hfm]
      simp
    rw [hfilter]
    rw [if_neg (by simpa [List.isEmpty_iff_eq_nil] using hne)]
  rw [hj]
  rfl

/-- C4 (amended): the two cleaning layers do **not** coincide in general
(see `c4_counterexample`); type by type they agree only on restricted
domains.  For `number`, the numeric value matches whenever the trimmed
cell text is a plain signed decimal numeral.  For `string`, the adapter
layer (`_apply_type_enforcement`) passes the value through unchanged,
while the manual-recipe layer strips whitespace and maps `"nan"` to `""`,
so the two agree exactly on already-trimmed values other than `"nan"`.
For `date`, when pandas parses the value (and the stripped text is
non-empty) both layers yield the parsed ISO date; on a parse failure the
manual-recipe layer coerces to null (`NaT`) while the adapter returns the
stripped text unchanged. -/
theorem c4_cleaning_layers (dp : String → Option String) (v : String) :
    (isSimpleNumeral (pyStrip v) = true →
      numValue (cleanNumberValue v) = janitorCleanNumber v) ∧
    applyTypeEnforcement dp [[v]] ["string"] = [[v]] ∧
    ((pyStrip v = v ∧ v ≠ "nan") → janitorCleanString v = v) ∧
    (∀ iso, dp v = some iso → pyStrip v ≠ "" →
      cleanDateValue dp v = iso ∧ janitorCleanCell dp "date" v = .date iso) ∧
    (dp v = none →
      cleanDateValue dp v = pyStrip v ∧ janitorCleanCell dp "date" v = .null) := by
  refine ⟨c4_number_agree v, rfl, ?_, ?_, ?_⟩
  · rintro ⟨h1, h2⟩
    unfold janitorCleanString
    rw [h1, if_neg h2]
  · intro iso hdp hstrip
    constructor
    · unfold cleanDateValue
      dsimp only
      rw [if_neg hstrip, hdp]
    · show (match dp v with
        | some d => Cell.date d
        | none => Cell.null) = Cell.date iso
      rw [hdp]
  · intro hdp
    constructor
    · unfold cleanDateValue
      dsimp only
      by_cases h : pyStrip v = ""
      · rw [if_pos h, h]
      · rw [if_neg h, hdp]
    · show (match dp v with
        | some d => Cell.date d
        | none => Cell.null) = Cell.null
      rw [hdp]

/-- C4 witness: the numeral regime at `"-12.5"`, the string regime at
`"abc"`, a parseable date, and an unparseable date. -/
theorem c4_cleaning_layers_witness :
    numValue (cleanNumberValue "-12.5") = janitorCleanNumber "-12.5" ∧
    janitorCleanString "abc" = "abc" ∧
    cleanDateValue (fun s => if s = "1/2/2025" then some "2025-01-02" else none)
      "1/2/2025" = "2025-01-02" ∧
    janitorCleanCell (fun s => if s = "1/2/2025" then some "2025-01-02" else none)
      "date" "1/2/2025" = .date "2025-01-02" ∧
    cleanDateValue (fun _ => none) "wat" = "wat" ∧
    janitorCleanCell (fun _ => none) "date" "wat" = Cell.null := by
  obtain ⟨hd1, hd2⟩ :=
    (c4_cleaning_layers
      (fun s => if s = "1/2/2025" then some "2025-01-02" else none)
      "1/2/2025").2.2.2.1 "2025-01-02" (by decide) (by decide)
  obtain ⟨hf1, hf2⟩ := (c4_cleaning_layers (fun _ => none) "wat").2.2.2.2 rfl
  exact ⟨(c4_cleaning_layers (fun _ => none) "-12.5").1 (by decide),
    (c4_cleaning_layers (fun _ => none) "abc").2.2.1 ⟨by decide, by decide⟩,
    hd1, hd2, hf1, hf2⟩

/-! ## Claim C6: detector behavior on malformed events -/

/-- C6 counterexample: an event whose `source` key is present but null
makes `_detect_disk_full` raise `AttributeError` (`None.lower()`), and an
event with null `tags` makes `_detect_bsod` raise `TypeError`
(`"bsod" in None`) — the detectors do **not** tolerate every malformed
field the claim lists. -/
theorem c6_counterexample :
    detectDiskFull (fun _ => none) 0 [nullSourceEvent] = .error .attributeError ∧
    detectBsod (fun _ => none) 0 [nullTagsEvent] = .error .typeError := by
  constructor
  · rfl
  · rfl

theorem filterE_ok (p : α → Except PyErr Bool) (l : List α)
    (h : ∀ a ∈ l, (p a).isOk = true) :
    ∃ r, filterE p l = .ok r ∧ ∀ x ∈ r, x ∈ l := by
  induction l with
  | nil => exact ⟨[], rfl, by simp⟩
  | cons a t ih =>
    obtain ⟨r, hr, hsub⟩ := ih fun x hx => h x (List.mem_cons_of_mem _ hx)
    have ha := h a (List.mem_cons_self _ _)
    cases hpa : p a with
    | error e => rw [hpa] at ha; simp [Except.isOk, Except.toBool] at ha
    | ok b =>
      refine ⟨if b then a :: r else r, ?_, ?_⟩
      · unfold filterE
        rw [hpa, hr]
        rfl
      · intro x hx
        cases b with
        | true =>
          rcases List.mem_cons.mp (by simpa using hx) with rfl | hxr
          · exact List.mem_cons_self _ _
          · exact List.mem_cons_of_mem _ (hsub x hxr)
        | false => exact List.mem_cons_of_mem _ (hsub x (by simpa using hx))

theorem pyInTags_ok (x : String) (f : PyField (List String)) (h : f ≠ .null) :
    (pyInTags x (f.get [])).isOk = true := by
  cases f with
  | absent => rfl
  | null => exact absurd rfl h
  | val a => rfl

theorem optLower_ok (f : PyField String) (h : f ≠ .null) :
    (optLower (f.get "")).isOk = true := by
  cases f with
  | absent => rfl
  | null => exact absurd rfl h
  | val a => rfl

theorem bind_ok_of_ok {α β : Type} (x : Except PyErr α) (g : α → Except PyErr β)
    (hx : x.isOk = true) (hg : ∀ a, x = .ok a → (g a).isOk = true) :
    (x >>= g).isOk = true := by
  cases x with
  | error e => simp [Except.isOk, Except.toBool] at hx
  | ok a => exact hg a rfl

theorem diskPred_ok (e : Event) (h1 : e.tags ≠ .null) (h2 : e.source ≠ .null) :
    (diskPred e).isOk = true := by
  unfold diskPred
  refine bind_ok_of_ok _ _ (pyInTags_ok _ _ h1) ?_
  intro b _
  cases b with
  | true => rfl
  | false =>
    refine bind_ok_of_ok _ _ (optLower_ok _ h2) ?_
    intro s _
    rfl

theorem bsodPred_ok (e : Event) (h1 : e.tags ≠ .null) :
    (bsodPred e).isOk = true := by
  unfold bsodPred
  refine bind_ok_of_ok _ _ (pyInTags_ok _ _ h1) ?_
  intro b _
  cases b with
  | true => rfl
  | false => exact pyInTags_ok _ _ h1

theorem servicePred_ok (e : Event) (h1 : e.tags ≠ .null) (h2 : e.provider ≠ .null) :
    (serviceCrashPred e).isOk = true := by
  unfold serviceCrashPred
  refine bind_ok_of_ok _ _ (pyInTags_ok _ _ h1) ?_
  intro b _
  cases b with
  | true => rfl
  | false =>
    refine bind_ok_of_ok _ _ (optLower_ok _ h2) ?_
    intro s _
    rfl

theorem networkPred_ok (e : Event) (h1 : e.tags ≠ .null) :
    (networkPred e).isOk = true := by
  unfold networkPred
  refine bind_ok_of_ok _ _ (pyInTags_ok _ _ h1) ?_
  intro b _
  cases b with
  | true => rfl
  | false => exact pyInTags_ok _ _ h1

theorem updatePred_ok (e : Event) (h1 : e.tags ≠ .null) (h2 : e.source ≠ .null) :
    (updatePred e).isOk = true := by
  unfold updatePred
  refine bind_ok_of_ok _ _ (pyInTags_ok _ _ h1) ?_
  intro b _
  cases b with
  | true => rfl
  | false =>
    refine bind_ok_of_ok _ _ (optLower_ok _ h2) ?_
    intro s _
    rfl

theorem signatureForEvent_ok (e : Event) (h : e.message ≠ .null) :
    (signatureForEvent (e.provider.get "") e.eventId.getOpt
      (e.message.get "")).isOk = true := by
  cases hm : e.message with
  | absent => rfl
  | null => exact absurd hm h
  | val v => rfl

/-- C6 (amended): the five detectors return without raising — skipping
unparseable timestamps and tolerating absent fields — provided no event
carries a present-but-null `tags`, `source`, `provider` or `message`; a
null in one of those four fields can raise (see `c6_counterexample`). -/
theorem c6_detectors_total (pt : String → Option Int) (now : Int)
    (events : List Event) (h : noNullDetectorFields events) :
    (detectBsod pt now events).isOk = true ∧
    (detectDiskFull pt now events).isOk = true ∧
    (detectServiceCrash pt now events).isOk = true ∧
    (detectNetwork pt now events).isOk = true ∧
    (detectUpdateFailure pt now events).isOk = true := by
  have htags : ∀ e ∈ events, e.tags ≠ .null := fun e he => (h e he).1
  have hsource : ∀ e ∈ events, e.source ≠ .null := fun e he => (h e he).2.1
  have hprov : ∀ e ∈ events, e.provider ≠ .null := fun e he => (h e he).2.2.1
  have hmsg : ∀ e ∈ events, e.message ≠ .null := fun e he => (h e he).2.2.2
  refine ⟨?_, ?_, ?_, ?_, ?_⟩
  · obtain ⟨ev, hfe, hsub⟩ := filterE_ok bsodPred events
      (fun e he => bsodPred_ok e (htags e he))
    unfold detectBsod
    rw [hfe]
    simp only [Bind.bind, Except.bind]
    cases ev with
    | nil => rfl
    | cons e0 rest =>
      have he0 := hsub e0 (List.mem_cons_self _ _)
      refine bind_ok_of_ok _ _ (signatureForEvent_ok e0 (hmsg e0 he0)) ?_
      intro sig _
      rfl
  · obtain ⟨ev, hfe, hsub⟩ := filterE_ok diskPred events
      (fun e he => diskPred_ok e (htags e he) (hsource e he))
    unfold detectDiskFull
    rw [hfe]
    simp only [Bind.bind, Except.bind]
    cases ev with
    | nil => rfl
    | cons e0 rest =>
      have he0 := hsub e0 (List.mem_cons_self _ _)
      refine bind_ok_of_ok _ _ (signatureForEvent_ok e0 (hmsg e0 he0)) ?_
      intro sig _
      rfl
  · obtain ⟨ev, hfe, hsub⟩ := filterE_ok serviceCrashPred events
      (fun e he => servicePred_ok e (htags e he) (hprov e he))
    unfold detectServiceCrash
    rw [hfe]
    simp only [Bind.bind, Except.bind]
    by_cases hlen : ev.length < 2
    · rw [if_pos hlen]
      rfl
    · rw [if_neg hlen]
      cases ev with
      | nil => rfl
      | cons e0 rest =>
        have he0 := hsub e0 (List.mem_cons_self _ _)
        refine bind_ok_of_ok _ _ (signatureForEvent_ok e0 (hmsg e0 he0)) ?_
        intro sig _
        rfl
  · obtain ⟨ev, hfe, hsub⟩ := filterE_ok networkPred events
      (fun e he => networkPred_ok e (htags e he))
    unfold detectNetwork
    rw [hfe]
    simp only [Bind.bind, Except.bind]
    cases ev with
    | nil => rfl
    | cons e0 rest =>
      have he0 := hsub e0 (List.mem_cons_self _ _)
      refine bind_ok_of_ok _ _ (signatureForEvent_ok e0 (hmsg e0 he0)) ?_
      intro sig _
      rfl
  · obtain ⟨ev, hfe, hsub⟩ := filterE_ok updatePred events
      (fun e he => updatePred_ok e (htags e he) (hsource e he))
    unfold detectUpdateFailure
    rw [hfe]
    simp only [Bind.bind, Except.bind]
    cases ev with
    | nil => rfl
    | cons e0 rest =>
      have he0 := hsub e0 (List.mem_cons_self _ _)
      refine bind_ok_of_ok _ _ (signatureForEvent_ok e0 (hmsg e0 he0)) ?_
      intro sig _
      rfl

/-- C6 witness: one event with absent optional fields and an unparseable
timestamp is tolerated by all five detectors. -/
theorem c6_detectors_total_witness :
    (detectBsod (fun _ => none) 0 c6okEvents).isOk = true ∧
    (detectDiskFull (fun _ => none) 0 c6okEvents).isOk = true ∧
    (detectServiceCrash (fun _ => none) 0 c6okEvents).isOk = true ∧
    (detectNetwork (fun _ => none) 0 c6okEvents).isOk = true ∧
    (detectUpdateFailure (fun _ => none) 0 c6okEvents).isOk = true :=
  c6_detectors_total (fun _ => none) 0 c6okEvents (by
    intro e he
    rcases List.mem_singleton.mp he with rfl
    refine ⟨by decide, by decide, by decide, by decide⟩)

/-! ## Claim C7: snapshot selection and the `max_hosts` cap -/

/-- C7 counterexample: three in-window snapshots over the two hosts `aaa`
(two snapshots) and `bbb` (one).  In mode `all` with `max_hosts = 2` the
claim says both distinct hosts are kept with all their snapshots (three
records); the code instead truncates the record list to 2, and host `bbb`
is dropped entirely. -/
theorem c7_counterexample :
    (loadSnapshots c7files 0 100 "all" none).length = 3 ∧
    (((loadSnapshots c7files 0 100 "all" none).map fun e =>
        pyOrStr e.dataHostId "").dedup).length = 2 ∧
    ((loadSnapshots c7files 0 100 "all" (some 2)).map fun e =>
        pyOrStr e.dataHostId "") = ["aaa", "aaa"] := by
  refine ⟨by decide, by decide, by decide⟩

theorem mem_insertStable (le : α → α → Bool) (a x : α) (l : List α) :
    x ∈ insertStable le a l ↔ x = a ∨ x ∈ l := by
  induction l with
  | nil => simp [insertStable]
  | cons b bs ih =>
    unfold insertStable
    by_cases h : le b a = true
    · rw [if_pos h, List.mem_cons, ih, List.mem_cons]
      tauto
    · rw [if_neg h, List.mem_cons]

theorem mem_foldl_insertStable (le : α → α → Bool) (l acc : List α) (x : α) :
    x ∈ l.foldl (fun acc a => insertStable le a acc) acc ↔ x ∈ acc ∨ x ∈ l := by
  induction l generalizing acc with
  | nil => simp
  | cons a t ih =>
    rw [List.foldl_cons, ih, mem_insertStable]
    simp only [List.mem_cons]
    tauto

theorem mem_stableSortBy (le : α → α → Bool) (l : List α) (x : α) :
    x ∈ stableSortBy le l ↔ x ∈ l := by
  unfold stableSortBy
  rw [mem_foldl_insertStable]
  simp

theorem bucketsHave_append_self (l : List (String × List SnapEntry))
    (k : String) (v : SnapEntry) : bucketsHave (bucketAppend l k v) v := by
  induction l with
  | nil => exact ⟨k, [v], by simp [bucketAppend], by simp⟩
  | cons p rest ih =>
    cases p with
    | mk k' vs' =>
      unfold bucketAppend
      by_cases h : k' = k
      · rw [if_pos h]
        exact ⟨k', vs' ++ [v], List.mem_cons_self _ _, by simp⟩
      · rw [if_neg h]
        obtain ⟨k1, vs1, hm, hx⟩ := ih
        exact ⟨k1, vs1, List.mem_cons_of_mem _ hm, hx⟩

theorem bucketsHave_append_mono (l : List (String × List SnapEntry))
    (k : String) (v x : SnapEntry) (h : bucketsHave l x) :
    bucketsHave (bucketAppend l k v) x := by
  induction l with
  | nil =>
    obtain ⟨k0, vs, hm, _⟩ := h
    simp at hm
  | cons p rest ih =>
    obtain ⟨k0, vs, hm, hx⟩ := h
    cases p with
    | mk k' vs' =>
      unfold bucketAppend
      by_cases hk : k' = k
      · rw [if_pos hk]
        rcases List.mem_cons.mp hm with he | hm2
        · injection he with h1 h2
          exact ⟨k', vs' ++ [v], List.mem_cons_self _ _,
            List.mem_append_left _ (h2 ▸ hx)⟩
        · exact ⟨k0, vs, List.mem_cons_of_mem _ hm2, hx⟩
      · rw [if_neg hk]
        rcases List.mem_cons.mp hm with he | hm2
        · exact ⟨k0, vs, by rw [he]; exact List.mem_cons_self _ _, hx⟩
        · obtain ⟨k1, vs1, hm1, hx1⟩ := ih ⟨k0, vs, hm2, hx⟩
          exact ⟨k1, vs1, List.mem_cons_of_mem _ hm1, hx1⟩

theorem loadSnapStep_eligible (cutoff now : Int)
    (ph : List (String × List SnapEntry)) (f : SnapFile)
    (he : eligibleSnap cutoff f = true) :
    ∃ host, loadSnapStep cutoff now ph f =
      bucketAppend ph host (snapEntryOf now f) := by
  unfold eligibleSnap at he
  rw [Bool.and_eq_true] at he
  obtain ⟨hjson, hrest⟩ := he
  unfold loadSnapStep
  cases hsplit : (splitChar '/' f.key.toList).reverse with
  | nil =>
    rw [hsplit] at hrest
    simp at hrest
  | cons filename rest2 =>
    cases rest2 with
    | nil =>
      rw [hsplit] at hrest
      simp at hrest
    | cons pathHost rest3 =>
      rw [hsplit] at hrest
      rw [Bool.and_eq_true, Bool.and_eq_true, Bool.and_eq_true] at hrest
      obtain ⟨⟨⟨hhost, hfile⟩, hparse⟩, hwin⟩ := hrest
      refine ⟨pyOrStr f.dataHostId (String.mk pathHost), ?_⟩
      dsimp only
      rw [hhost, hfile, hparse]
      simp only [Bool.not_true, Bool.false_eq_true, if_false]
      rw [Bool.not_eq_true'] at hwin
      rw [hwin]
      simp only [Bool.false_eq_true, if_false]
      rfl

theorem loadSnapStep_mono (cutoff now : Int)
    (ph : List (String × List SnapEntry)) (f : SnapFile) (x : SnapEntry)
    (h : bucketsHave ph x) : bucketsHave (loadSnapStep cutoff now ph f) x := by
  unfold loadSnapStep
  cases (splitChar '/' f.key.toList).reverse with
  | nil => exact h
  | cons a b =>
    cases b with
    | nil => exact h
    | cons c d =>
      dsimp only
      split
      · exact h
      · split
        · exact h
        · split
          · exact h
          · split
            · exact h
            · exact bucketsHave_append_mono _ _ _ _ h

theorem foldl_loadSnapStep_mono (cutoff now : Int) (l : List SnapFile)
    (ph : List (String × List SnapEntry)) (x : SnapEntry)
    (h : bucketsHave ph x) :
    bucketsHave (l.foldl (loadSnapStep cutoff now) ph) x := by
  induction l generalizing ph with
  | nil => exact h
  | cons a t ih =>
    rw [List.foldl_cons]
    exact ih _ (loadSnapStep_mono _ _ _ _ _ h)

theorem foldl_loadSnapStep_have (cutoff now : Int) (l : List SnapFile)
    (ph : List (String × List SnapEntry)) (f : SnapFile) (hf : f ∈ l)
    (he : eligibleSnap cutoff f = true) :
    bucketsHave (l.foldl (loadSnapStep cutoff now) ph) (snapEntryOf now f) := by
  induction l generalizing ph with
  | nil => simp at hf
  | cons a t ih =>
    rw [List.foldl_cons]
    rcases List.mem_cons.mp hf with rfl | hft
    · obtain ⟨host, hstep⟩ := loadSnapStep_eligible cutoff now ph f he
      rw [hstep]
      exact foldl_loadSnapStep_mono cutoff now t _ _
        (bucketsHave_append_self ph host (snapEntryOf now f))
    · exact ih _ hft

theorem mem_select_all (ph : List (String × List SnapEntry))
    (acc : List SnapEntry) (x : SnapEntry)
    (h : bucketsHave ph x ∨ x ∈ acc) :
    x ∈ ph.foldl (selectFromBucket "all") acc := by
  induction ph generalizing acc with
  | nil =>
    rcases h with ⟨k, vs, hm, _⟩ | h
    · simp at hm
    · simpa using h
  | cons b rest ih =>
    rw [List.foldl_cons]
    apply ih
    have hsel : selectFromBucket "all" acc b =
        acc ++ stableSortBy (fun a b => decide (b.end_ ≤ a.end_)) b.2 := by
      unfold selectFromBucket
      rw [if_neg (by simp)]
    rcases h with ⟨k, vs, hm, hx⟩ | hacc
    · rcases List.mem_cons.mp hm with he | hm2
      · refine Or.inr ?_
        rw [hsel]
        refine List.mem_append_right _ ?_
        rw [mem_stableSortBy]
        rw [← he]
        exact hx
      · exact Or.inl ⟨k, vs, hm2, hx⟩
    · exact Or.inr (by rw [hsel]; exact List.mem_append_left _ hacc)

/-- C7 (amended): in `select_mode = "all"` every eligible in-window
snapshot of every host is kept when no cap is given; but `max_hosts`
truncates the host-sorted **record** list, so in `all` mode it caps
snapshot records, not distinct hosts (one host's snapshots can crowd out
other hosts — see `c7_counterexample`; in `latest` mode, with one record
per host, the truncation coincides with a host cap). -/
theorem c7_load_snapshots :
    (∀ (files : List SnapFile) (cutoff now : Int) (mode : String) (m : Nat),
      loadSnapshots files cutoff now mode (some m) =
        (loadSnapshots files cutoff now mode none).take m) ∧
    (∀ (files : List SnapFile) (cutoff now : Int) (f : SnapFile),
      f ∈ files → eligibleSnap cutoff f = true →
      ∃ e ∈ loadSnapshots files cutoff now "all" none, e.key = f.key) := by
  constructor
  · intro files cutoff now mode m
    rfl
  · intro files cutoff now f hf he
    refine ⟨snapEntryOf now f, ?_, rfl⟩
    unfold loadSnapshots
    rw [mem_stableSortBy]
    apply mem_select_all
    left
    apply foldl_loadSnapStep_have cutoff now _ _ f ?_ he
    refine List.mem_filter.mpr ⟨hf, ?_⟩
    unfold eligibleSnap at he
    rw [Bool.and_eq_true] at he
    exact he.1

/-- C7 witness: the cap-as-truncation identity and the keep-everything
property instantiated on the three-snapshot fixture. -/
theorem c7_load_snapshots_witness :
    loadSnapshots c7files 0 100 "all" (some 2) =
      (loadSnapshots c7files 0 100 "all" none).take 2 ∧
    ∃ e ∈ loadSnapshots c7files 0 100 "all" none, e.key = c7fileB.key :=
  ⟨c7_load_snapshots.1 c7files 0 100 "all" 2,
   c7_load_snapshots.2 c7files 0 100 c7fileB (by decide) (by decide)⟩

/-! ## Claim C1: orchestrating over an empty preview -/

/-- C1 counterexample: with no preview rows there is no selected candidate,
so the ambiguity gate (`if selected and …`) cannot fire and the
orchestrator returns status `"ok"`, not `needs_human_confirmation`. -/
theorem c1_counterexample :
    (puhemiesOrchestrate [] "r1" [] none none none none none none
        (fun s => s)).2.status = "ok" ∧
      ("ok" : String) ≠ "needs_human_confirmation" := by
  exact ⟨rfl, by decide⟩

theorem store_get_appendShadow (s : Store) (runId ev k : String)
    (h : k ≠ storeKey runId "shadow.jsonl") :
    (appendShadow s runId ev).get k = s.get k := by
  unfold appendShadow
  exact store_get_put_other _ _ _ _ h

theorem c1_empty_result (store : Store) (runId : String)
    (fp su iak sh fh sn : Option String) (sha : String → String) :
    puhemiesOrchestrate store runId [] fp su iak sh fh sn sha =
      (appendShadow
        ((store.put (storeKey runId "evidence_packet.json")
          (.evidencePacket (c1Evidence runId fp su iak sh fh sn sha))).put
          (storeKey runId "header_spec.json")
          (.headerSpec (c1HeaderSpec runId)))
        runId "header_selection_ok",
      { runId := runId, status := "ok",
        message := "Header selection accepted.", question := none,
        choices := none, nextStep := some "continue_to_schema" }) := rfl

/-- C1 (amended): for a run over an empty input (no preview rows) the
orchestrator writes an evidence packet with `preview_rows = []` and a
header spec with an empty candidate list and empty selected id, but the
response has status `"ok"` with `next_step = continue_to_schema` and no
candidates listed — not `needs_human_confirmation` as the claim states,
because the ambiguity gate is guarded by the existence of a selected
candidate. -/
theorem c1_empty_preview (store : Store) (runId : String)
    (fp su iak sh fh sn : Option String) (sha : String → String) :
    (∃ e, (puhemiesOrchestrate store runId [] fp su iak sh fh sn sha).1.get
        (storeKey runId "evidence_packet.json") = some (.evidencePacket e) ∧
        e.previewRows = []) ∧
    (∃ hs, (puhemiesOrchestrate store runId [] fp su iak sh fh sn sha).1.get
        (storeKey runId "header_spec.json") = some (.headerSpec hs) ∧
        hs.candidates = [] ∧ hs.selectedCandidateId = "" ∧
        hs.needsHumanConfirmation = false) ∧
    (puhemiesOrchestrate store runId [] fp su iak sh fh sn sha).2.status = "ok" ∧
    (puhemiesOrchestrate store runId [] fp su iak sh fh sn sha).2.choices = none ∧
    (puhemiesOrchestrate store runId [] fp su iak sh fh sn sha).2.nextStep =
      some "continue_to_schema" := by
  rw [c1_empty_result]
  have hne1 : storeKey runId "evidence_packet.json" ≠
      storeKey runId "shadow.jsonl" :=
    string_append_left_cancel _ _ _ (by decide)
  have hne2 : storeKey runId "header_spec.json" ≠
      storeKey runId "shadow.jsonl" :=
    string_append_left_cancel _ _ _ (by decide)
  have hne3 : storeKey runId "evidence_packet.json" ≠
      storeKey runId "header_spec.json" :=
    string_append_left_cancel _ _ _ (by decide)
  refine ⟨?_, ?_, rfl, rfl, rfl⟩
  · refine ⟨c1Evidence runId fp su iak sh fh sn sha, ?_, rfl⟩
    rw [store_get_appendShadow _ _ _ _ hne1,
      store_get_put_other _ _ _ _ hne3, store_get_put_self]
  · refine ⟨c1HeaderSpec runId, ?_, rfl, rfl, rfl⟩
    rw [store_get_appendShadow _ _ _ _ hne2, store_get_put_self]

/-! ## Claim C9: metadata-only manual recipe -/

theorem applyManualRecipe_no_columns (dp : String → Option String)
    (nowStr : String) (store : Store) (runId : String) (recipe : Recipe)
    (ev : EvidencePacket) (inp : InputFile)
    (hmeta : (collectManualRecipeFields recipe.fields).1 ≠ [])
    (hcol : (collectManualRecipeFields recipe.fields).2.1 = []) :
    applyManualRecipe dp nowStr store runId recipe ev (some inp) =
      (store, .error
        "Manual recipe must include at least one column field to build a table.") := by
  have h1 : (collectManualRecipeFields recipe.fields).1.isEmpty = false := by
    cases hx : (collectManualRecipeFields recipe.fields).1 with
    | nil => exact absurd hx hmeta
    | cons a l => rfl
  have h2 : (collectManualRecipeFields recipe.fields).2.1.isEmpty = true := by
    rw [hcol]; rfl
  unfold applyManualRecipe
  simp only [h1, h2, Bool.false_and, Bool.false_eq_true, if_false, if_true]

/-- C9: when the stored manual recipe collects at least one metadata field
but no column field, `puhemies_continue` (with the evidence packet readable
and the file-hash resume guard passing) returns status
`needs_human_confirmation` with `next_step = fix_manual_recipe` and the
"must include at least one column field" message, and the store is
returned unchanged — no output artifact is written. -/
theorem c9_metadata_only_recipe (dp : String → Option String)
    (nowStr : String) (store : Store) (runId : String) (inp : InputFile)
    (ev : EvidencePacket) (recipe : Recipe)
    (hev : store.get (storeKey runId "evidence_packet.json") =
      some (.evidencePacket ev))
    (hrec : store.get (storeKey runId "manual_recipe.json") =
      some (.manualRecipe recipe))
    (hguard : optTruthy ev.fileHash = none ∨
      optTruthy ev.fileHash = some inp.fileHash)
    (hmeta : (collectManualRecipeFields recipe.fields).1 ≠ [])
    (hcol : (collectManualRecipeFields recipe.fields).2.1 = []) :
    puhemiesContinue dp nowStr store runId (some inp) =
      (store, .ok
        { runId := runId, status := "needs_human_confirmation",
          message :=
            "Manual recipe must include at least one column field to build a table.",
          question := some "Please fix manual_recipe.json and retry.",
          choices := none, nextStep := some "fix_manual_recipe" }) ∧
    strContains
      "Manual recipe must include at least one column field to build a table."
      "column field" = true := by
  have hafter : puhemiesContinueAfterGuard dp nowStr store runId (some inp) ev =
      (store, .ok
        { runId := runId, status := "needs_human_confirmation",
          message :=
            "Manual recipe must include at least one column field to build a table.",
          question := some "Please fix manual_recipe.json and retry.",
          choices := none, nextStep := some "fix_manual_recipe" }) := by
    unfold puhemiesContinueAfterGuard
    rw [hrec]
    dsimp only
    rw [applyManualRecipe_no_columns dp nowStr store runId recipe ev inp hmeta hcol]
  refine ⟨?_, by decide⟩
  unfold puhemiesContinue
  rw [hev]
  dsimp only
  rcases hguard with hg | hg
  · rw [hg]
    exact hafter
  · rw [hg]
    simp only [beq_self_eq_true, Bool.not_true, Bool.false_eq_true, if_false]
    exact hafter

theorem c9_metadata_only_recipe_witness :
    (puhemiesContinue (fun _ => none) "t" c9store "r9" (some c9input)).2 =
      .ok { runId := "r9", status := "needs_human_confirmation",
            message :=
              "Manual recipe must include at least one column field to build a table.",
            question := some "Please fix manual_recipe.json and retry.",
            choices := none, nextStep := some "fix_manual_recipe" } := by
  have h := c9_metadata_only_recipe (fun _ => none) "t" c9store "r9" c9input
    c9evidence c9recipe (by rfl) (by rfl) (Or.inl (by rfl))
    (by decide) (by rfl)
  rw [h.1]
